import Mathlib

/-
Verification of the window synchronization controller
(`src/display/window.rs` of skia-canvas).

The controller bridges the native event loop and the script runtime: it
caches the last-known window attributes, ingests OS events, delivers
event batches to script once per tick, and reconciles the reply of the script
array against the cache, emitting commands for every difference.

Shallow embedding notes:
* `WindowState` carries the cached fields of the Rust `Window` struct
  (position, size, title, cursor, fit, dpr, fullscreen, visible,
  animated, fps).  The channel handles (`proxy`, `js_events`) and the
  event sieve are modelled by a `Config` (channel liveness and the two
  external string parsers) plus explicit emission lists.
* JavaScript values are modelled by `JsVal`; a `downcast` to a given
  type succeeds exactly when the value has the matching constructor.
* Machine integers: `u32`/`u64` become `Nat`, `i32` becomes `Int`; the
  Rust `as` casts from `f64` (saturating truncation toward zero) are
  modelled on `ℚ` (every finite float is rational; NaN is outside the
  model).
* Fallible operations: a `send_event` on the closed proxy returns an
  error (Rust `?` propagation, `FbRes.closed`), an `unwrap` on a closed
  crossbeam channel or an out-of-bounds `Vec` index is a panic
  (`FbRes.panicked`).  Both carry the partially-updated state.
-/

namespace SkiaWindow

/-- Cursor styles (external `glutin::window::CursorIcon`); only equality
and the default member matter to the controller. -/
inductive CursorIcon where
  | Default
  | Named (s : String)
deriving DecidableEq, Repr

/-- Content-fit modes (external `super::Fit`); the controller only
compares them and stores the default `Contain{x:false, y:true}`. -/
inductive Fit where
  | Contain (x y : Bool)
  | Named (s : String)
deriving DecidableEq, Repr

/-- Events sent over the command channel (`EventLoopProxy`) and the
rendering channel (`js_events`), mirroring `CanvasEvent`. -/
inductive CanvasEvent where
  | Page (p : Nat)
  | Title (s : String)
  | Close
  | Fullscreen (b : Bool)
  | FrameRate (n : Nat)
  | Size (w h : Nat)
  | Position (x y : Int)
  | Cursor (c : Option CursorIcon)
  | Fit (f : Option SkiaWindow.Fit)
  | Visible (b : Bool)
  | Resized (w h : Nat)
  | Render
deriving DecidableEq, Repr

/-- Calls into the event sieve (`event::Sieve`), the Event Collector. -/
inductive SieveCall where
  | goFullscreen (b : Bool)
  | useTransform
  | capture
deriving DecidableEq, Repr

/-- JavaScript values as seen through neon downcasts.  `undefined`
stands for any value that downcasts to none of the types the
controller probes for. -/
inductive JsVal where
  | context (page : Nat)
  | str (s : String)
  | bool (b : Bool)
  | num (q : ℚ)
  | arr (vals : List JsVal)
  | undefined

/-- True exactly when the value downcasts to `JsArray`. -/
def JsVal.isArr : JsVal → Bool
  | .arr _ => true
  | _ => false

/-- The cached window attributes of the Rust `Window` struct. -/
structure WindowState where
  position : Int × Int
  size : Nat × Nat
  title : String
  cursor : Option CursorIcon
  fit : Option Fit
  dpr : ℚ
  fullscreen : Bool
  visible : Bool
  animated : Bool
  fps : Nat
deriving DecidableEq, Repr

/-- Channel environment and external parsers.  `proxyOpen` models
whether the native loop still holds the receiving end of the command
channel; `jsChannel` is `none` before a view is attached and
`some b` afterwards (`b` = the rendering-side receiver is alive).
`toCursorIcon` and `toCanvasFit` are the external string parsers
`to_cursor_icon` / `to_canvas_fit` from `crate::utils`. -/
structure Config where
  proxyOpen : Bool
  jsChannel : Option Bool
  toCursorIcon : String → Option CursorIcon
  toCanvasFit : String → Option Fit

/-- State threaded through a reconciliation: the cache plus the events
emitted so far on the command channel (`cmds`), the rendering channel
(`rends`) and the sieve (`sieve`). -/
structure FbState where
  win : WindowState
  cmds : List CanvasEvent
  rends : List CanvasEvent
  sieve : List SieveCall
deriving DecidableEq, Repr

/-- Outcome of a stateful step: normal return, an `EventLoopClosed`
error propagated by `?`, or a Rust panic (failed `unwrap` or
out-of-bounds index).  All carry the state at the point of failure. -/
inductive FbRes where
  | ok (s : FbState)
  | closed (s : FbState)
  | panicked (s : FbState)
deriving DecidableEq, Repr

/-- The state carried by any outcome. -/
def FbRes.state : FbRes → FbState
  | .ok s => s
  | .closed s => s
  | .panicked s => s

/-- True only for a normal return. -/
def FbRes.isOk : FbRes → Bool
  | .ok _ => true
  | _ => false

/-- Sequencing: a closed-channel error or a panic aborts the rest. -/
def FbRes.andThen : FbRes → (FbState → FbRes) → FbRes
  | .ok s, f => f s
  | r, _ => r

/-- Rust `self.proxy.send_event(ev)?`: append to the command channel,
or propagate `EventLoopClosed` when the loop is gone. -/
def sendProxy (cfg : Config) (ev : CanvasEvent) (s : FbState) : FbRes :=
  if cfg.proxyOpen then .ok { s with cmds := s.cmds ++ [ev] } else .closed s

/-- Send on the rendering channel, guarded by its presence: the source
unwraps the send result, so no channel means no send, an attached open
channel delivers, and an attached closed channel panics. -/
def sendRender (cfg : Config) (ev : CanvasEvent) (s : FbState) : FbRes :=
  match cfg.jsChannel with
  | none => .ok s
  | some true => .ok { s with rends := s.rends ++ [ev] }
  | some false => .panicked s

/-- Truncation toward zero of a rational (the rounding mode of Rust
`as` casts from floats). -/
def ratTrunc (q : ℚ) : Int :=
  if 0 ≤ q then ⌊q⌋ else -⌊-q⌋

/-- Rust `f64 as u64`: truncate toward zero, saturate into `[0, 2^64)`. -/
def f64_as_u64 (q : ℚ) : Nat :=
  if q ≤ 0 then 0 else min (ratTrunc q).toNat (2 ^ 64 - 1)

/-- Rust `f64 as u32`: truncate toward zero, saturate into `[0, 2^32)`. -/
def f64_as_u32 (q : ℚ) : Nat :=
  if q ≤ 0 then 0 else min (ratTrunc q).toNat (2 ^ 32 - 1)

/-- Rust `f64 as i32`: truncate toward zero, saturate into i32 range. -/
def f64_as_i32 (q : ℚ) : Int :=
  max (-(2 ^ 31)) (min (ratTrunc q) (2 ^ 31 - 1))

/-- Modelled from the spec: the external dpi conversion
`LogicalSize::from_physical` (glutin/winit, absent from the sources)
divides a physical extent by the device-pixel-ratio and rounds to the
nearest integer pixel. -/
def logical_of_physical (p : Nat) (dpr : ℚ) : Nat :=
  (⌊(p : ℚ) / dpr + 1 / 2⌋).toNat

/-- Modelled from the spec: the external dpi conversion
`LogicalPosition::from_physical` for signed coordinates. -/
def logical_pos_of_physical (x : Int) (dpr : ℚ) : Int :=
  ⌊(x : ℚ) / dpr + 1 / 2⌋

/-- The initial cache built by `Window::new` (position (0,0), size from the
caller via `as u32`, empty title, default cursor, Contain{x:false,y:true}
fit, dpr 1.0, fps 0, not visible, not animated, not fullscreen). -/
def Window.new (width height : ℚ) : WindowState :=
  { position := (0, 0)
    size := (f64_as_u32 width, f64_as_u32 height)
    title := ""
    cursor := some CursorIcon.Default
    fit := some (Fit.Contain false true)
    dpr := 1
    fullscreen := false
    visible := false
    animated := false
    fps := 0 }

/-- Attaching a view (`Window::new_view`) records its device-pixel-ratio
in the cache (the channel attachment itself lives in
`Config.jsChannel`). -/
def new_view (win : WindowState) (viewDpr : ℚ) : WindowState :=
  { win with dpr := viewDpr }

/-- An OS-detected fullscreen transition (`Window::went_fullscreen`),
guarded by the cached flag; on change it updates the cache and notifies
the sieve. -/
def went_fullscreen (win : WindowState) (is_fullscreen : Bool) :
    WindowState × List SieveCall :=
  if is_fullscreen ≠ win.fullscreen then
    ({ win with fullscreen := is_fullscreen }, [SieveCall.goFullscreen is_fullscreen])
  else (win, [])

/-- Forwarding of a present matrix to the sieve (`Window::new_transform`). -/
def new_transform (win : WindowState) (has_matrix : Bool) :
    WindowState × List SieveCall :=
  (win, if has_matrix then [SieveCall.useTransform] else [])

/-- The window events `Window::handle_event` inspects. -/
inductive OsEvent where
  | Resized (w h : Nat)
  | Moved (x y : Int)
  | Other
deriving DecidableEq, Repr

/-- OS-event ingestion (`Window::handle_event`): a resize updates the cached logical size
and forwards `Resized` on the rendering channel (panicking `unwrap` on
a closed channel); a move updates the cached logical position; every
window event is then captured into the sieve. -/
def handle_event (cfg : Config) (win : WindowState) (ev : OsEvent) : FbRes :=
  let s0 : FbState := ⟨win, [], [], []⟩
  let r : FbRes :=
    match ev with
    | .Resized w h =>
        sendRender cfg (.Resized w h)
          { s0 with win := { win with
              size := (logical_of_physical w win.dpr, logical_of_physical h win.dpr) } }
    | .Moved x y =>
        .ok { s0 with win := { win with
            position := (logical_pos_of_physical x win.dpr,
                         logical_pos_of_physical y win.dpr) } }
    | .Other => .ok s0
  r.andThen fun s => .ok { s with sieve := s.sieve ++ [SieveCall.capture] }

/-- Positional read `vals[k]` followed by the field handler: a Rust
vector index out of bounds panics. -/
def atIdx (vals : List JsVal) (k : Nat) (f : JsVal → FbState → FbRes)
    (s : FbState) : FbRes :=
  match vals.get? k with
  | none => .panicked s
  | some v => f v s

/-- Field 0 (page snapshot): a value that downcasts to a context emits
its page unconditionally. -/
def field0 (cfg : Config) (v : JsVal) (s : FbState) : FbRes :=
  match v with
  | .context page => sendProxy cfg (.Page page) s
  | _ => .ok s

/-- Field 1 (title): a string differing from the cached title updates
the cache and emits a title command. -/
def field1 (cfg : Config) (v : JsVal) (s : FbState) : FbRes :=
  match v with
  | .str title =>
      if title ≠ s.win.title then
        sendProxy cfg (.Title title) { s with win := { s.win with title := title } }
      else .ok s
  | _ => .ok s

/-- Field 2 (keep-running flag): the boolean `false` emits a close
command; there is no cached counterpart. -/
def field2 (cfg : Config) (v : JsVal) (s : FbState) : FbRes :=
  match v with
  | .bool active => if active then .ok s else sendProxy cfg .Close s
  | _ => .ok s

/-- Field 3 (fullscreen): a boolean differing from the cache updates
the cache, forwards on the rendering channel (unwrap), and notifies the
sieve; nothing goes to the command channel. -/
def field3 (cfg : Config) (v : JsVal) (s : FbState) : FbRes :=
  match v with
  | .bool b =>
      if b ≠ s.win.fullscreen then
        (sendRender cfg (.Fullscreen b)
            { s with win := { s.win with fullscreen := b } }).andThen
          fun s2 => .ok { s2 with sieve := s2.sieve ++ [SieveCall.goFullscreen b] }
      else .ok s
  | _ => .ok s

/-- Field 4 (fps): the number is cast `as u64`; on change the cache is
updated and a frame-rate command emitted. -/
def field4 (cfg : Config) (v : JsVal) (s : FbState) : FbRes :=
  match v with
  | .num q =>
      let fps := f64_as_u64 q
      if fps ≠ s.win.fps then
        sendProxy cfg (.FrameRate fps) { s with win := { s.win with fps := fps } }
      else .ok s
  | _ => .ok s

/-- The inner handler for field 6, once field 5 has produced a number. -/
def field56inner (cfg : Config) (w : ℚ) (vh : JsVal) (s : FbState) : FbRes :=
  match vh with
  | .num h =>
      let size := (f64_as_u32 w, f64_as_u32 h)
      if size ≠ s.win.size then
        sendProxy cfg (.Size size.1 size.2)
          { s with win := { s.win with size := size } }
      else .ok s
  | _ => .ok s

/-- Fields 5 and 6 (size): index 6 is only read when index 5 is a
number; both cast `as u32`; on change the cache is updated and a size
command emitted. -/
def field56 (cfg : Config) (vals : List JsVal) (s : FbState) : FbRes :=
  atIdx vals 5
    (fun vw s =>
      match vw with
      | .num w => atIdx vals 6 (field56inner cfg w) s
      | _ => .ok s) s

/-- The inner handler for field 8, once field 7 has produced a number. -/
def field78inner (cfg : Config) (x : ℚ) (vy : JsVal) (s : FbState) : FbRes :=
  match vy with
  | .num y =>
      let position := (f64_as_i32 x, f64_as_i32 y)
      if position ≠ s.win.position then
        sendProxy cfg (.Position position.1 position.2)
          { s with win := { s.win with position := position } }
      else .ok s
  | _ => .ok s

/-- Fields 7 and 8 (position): index 8 is only read when index 7 is a
number; both cast `as i32`; on change the cache is updated and a
position command emitted. -/
def field78 (cfg : Config) (vals : List JsVal) (s : FbState) : FbRes :=
  atIdx vals 7
    (fun vx s =>
      match vx with
      | .num x => atIdx vals 8 (field78inner cfg x) s
      | _ => .ok s) s

/-- Field 9 (cursor): acts when the resolved icon differs from the
cache and resolves to something, or when the literal string is the
sentinel `"none"`; then the cache takes the resolved icon and a cursor
command is emitted. -/
def field9 (cfg : Config) (v : JsVal) (s : FbState) : FbRes :=
  match v with
  | .str style =>
      let icon := cfg.toCursorIcon style
      if (icon ≠ s.win.cursor ∧ icon.isSome = true) ∨ style = "none" then
        sendProxy cfg (.Cursor icon) { s with win := { s.win with cursor := icon } }
      else .ok s
  | _ => .ok s

/-- Field 10 (fit): same sentinel dynamics as the cursor field. -/
def field10 (cfg : Config) (v : JsVal) (s : FbState) : FbRes :=
  match v with
  | .str style =>
      let mode := cfg.toCanvasFit style
      if (mode ≠ s.win.fit ∧ mode.isSome = true) ∨ style = "none" then
        sendProxy cfg (.Fit mode) { s with win := { s.win with fit := mode } }
      else .ok s
  | _ => .ok s

/-- Field 11 (visible): a boolean differing from the cache updates the
cache and emits a visibility command. -/
def field11 (cfg : Config) (v : JsVal) (s : FbState) : FbRes :=
  match v with
  | .bool b =>
      if b ≠ s.win.visible then
        sendProxy cfg (.Visible b) { s with win := { s.win with visible := b } }
      else .ok s
  | _ => .ok s

/-- Reconciliation (`Window::handle_feedback`): a reply that does not downcast to an
array is ignored (`Ok(())`); an array is read positionally, each field
handled in index order, with `?`-propagation of channel errors. -/
def handle_feedback (cfg : Config) (win : WindowState) (feedback : JsVal) : FbRes :=
  match feedback with
  | .arr vals =>
      (((((((((atIdx vals 0 (field0 cfg) ⟨win, [], [], []⟩).andThen
        (atIdx vals 1 (field1 cfg))).andThen
        (atIdx vals 2 (field2 cfg))).andThen
        (atIdx vals 3 (field3 cfg))).andThen
        (atIdx vals 4 (field4 cfg))).andThen
        (field56 cfg vals)).andThen
        (field78 cfg vals)).andThen
        (atIdx vals 9 (field9 cfg))).andThen
        (atIdx vals 10 (field10 cfg))).andThen
        (atIdx vals 11 (field11 cfg))
  | _ => .ok ⟨win, [], [], []⟩

/-- The loop directive returned to the native loop (the two
`ControlFlow` variants the controller produces). -/
inductive ControlFlow where
  | Poll
  | Exit
deriving DecidableEq, Repr

/-- Outcome of `communicate`: a directive with the resulting state, or
a panic propagating out of reconciliation. -/
inductive CommOut where
  | ret (flow : ControlFlow) (s : FbState)
  | panicked (s : FbState)
deriving DecidableEq, Repr

/-- The state carried by a `communicate` outcome. -/
def CommOut.state : CommOut → FbState
  | .ret _ s => s
  | .panicked s => s

/-- True exactly when the outcome is a normal `Exit` directive. -/
def CommOut.isExit : CommOut → Bool
  | .ret .Exit _ => true
  | _ => false

/-- The full cycle (`Window::communicate`): call script with the serialized batch
(`response` is `none` when the callback throws); a received reply that
reconciles without channel error yields `Poll`, anything else `Exit`. -/
def communicate (cfg : Config) (win : WindowState) (response : Option JsVal) :
    CommOut :=
  match response with
  | none => .ret .Exit ⟨win, [], [], []⟩
  | some v =>
      match handle_feedback cfg win v with
      | .ok s => .ret .Poll s
      | .closed s => .ret .Exit s
      | .panicked s => .panicked s

/-- Result of a tick: the `communicate` outcome plus whether the script
callback was invoked at all. -/
structure TickResult where
  out : CommOut
  invoked : Bool
deriving DecidableEq, Repr

/-- The per-tick entry point (`Window::communicate_pending`); an empty
sieve short-circuits to `Poll` without calling script. -/
def communicate_pending (cfg : Config) (win : WindowState) (sieveEmpty : Bool)
    (response : Option JsVal) : TickResult :=
  if sieveEmpty then ⟨.ret .Poll ⟨win, [], [], []⟩, false⟩
  else ⟨communicate cfg win response, true⟩

/-! ## Pure per-field reconciliation effects: the effect of each reply
field on the cache and the channels as a pure value, proved below to
coincide with the stateful handlers whenever the command channel is
open and the rendering channel is attached and alive. -/

/-- The pure effect of one reply field: the new cache and the events
appended to the command channel, the rendering channel and the sieve. -/
structure Delta where
  win : WindowState
  cmds : List CanvasEvent
  rends : List CanvasEvent
  sieve : List SieveCall
deriving Repr

/-- Apply a pure field effect to a threaded state. -/
def applyDelta (s : FbState) (d : Delta) : FbState :=
  ⟨d.win, s.cmds ++ d.cmds, s.rends ++ d.rends, s.sieve ++ d.sieve⟩

/-- Pure effect of field 0 (page snapshot). -/
def field0d (v : JsVal) (w : WindowState) : Delta :=
  match v with
  | .context page => ⟨w, [.Page page], [], []⟩
  | _ => ⟨w, [], [], []⟩

/-- Pure effect of field 1 (title). -/
def field1d (v : JsVal) (w : WindowState) : Delta :=
  match v with
  | .str title =>
      if title ≠ w.title then ⟨{ w with title := title }, [.Title title], [], []⟩
      else ⟨w, [], [], []⟩
  | _ => ⟨w, [], [], []⟩

/-- Pure effect of field 2 (keep-running flag). -/
def field2d (v : JsVal) (w : WindowState) : Delta :=
  match v with
  | .bool active => if active then ⟨w, [], [], []⟩ else ⟨w, [.Close], [], []⟩
  | _ => ⟨w, [], [], []⟩

/-- Pure effect of field 3 (fullscreen). -/
def field3d (v : JsVal) (w : WindowState) : Delta :=
  match v with
  | .bool b =>
      if b ≠ w.fullscreen then
        ⟨{ w with fullscreen := b }, [], [.Fullscreen b], [.goFullscreen b]⟩
      else ⟨w, [], [], []⟩
  | _ => ⟨w, [], [], []⟩

/-- Pure effect of field 4 (fps). -/
def field4d (v : JsVal) (w : WindowState) : Delta :=
  match v with
  | .num q =>
      let fps := f64_as_u64 q
      if fps ≠ w.fps then ⟨{ w with fps := fps }, [.FrameRate fps], [], []⟩
      else ⟨w, [], [], []⟩
  | _ => ⟨w, [], [], []⟩

/-- Pure effect of fields 5 and 6 (size). -/
def field56d (vw vh : JsVal) (w : WindowState) : Delta :=
  match vw, vh with
  | .num qw, .num qh =>
      let size := (f64_as_u32 qw, f64_as_u32 qh)
      if size ≠ w.size then ⟨{ w with size := size }, [.Size size.1 size.2], [], []⟩
      else ⟨w, [], [], []⟩
  | _, _ => ⟨w, [], [], []⟩

/-- Pure effect of fields 7 and 8 (position). -/
def field78d (vx vy : JsVal) (w : WindowState) : Delta :=
  match vx, vy with
  | .num qx, .num qy =>
      let position := (f64_as_i32 qx, f64_as_i32 qy)
      if position ≠ w.position then
        ⟨{ w with position := position }, [.Position position.1 position.2], [], []⟩
      else ⟨w, [], [], []⟩
  | _, _ => ⟨w, [], [], []⟩

/-- Pure effect of field 9 (cursor). -/
def field9d (cfg : Config) (v : JsVal) (w : WindowState) : Delta :=
  match v with
  | .str style =>
      let icon := cfg.toCursorIcon style
      if (icon ≠ w.cursor ∧ icon.isSome = true) ∨ style = "none" then
        ⟨{ w with cursor := icon }, [.Cursor icon], [], []⟩
      else ⟨w, [], [], []⟩
  | _ => ⟨w, [], [], []⟩

/-- Pure effect of field 10 (fit). -/
def field10d (cfg : Config) (v : JsVal) (w : WindowState) : Delta :=
  match v with
  | .str style =>
      let mode := cfg.toCanvasFit style
      if (mode ≠ w.fit ∧ mode.isSome = true) ∨ style = "none" then
        ⟨{ w with fit := mode }, [.Fit mode], [], []⟩
      else ⟨w, [], [], []⟩
  | _ => ⟨w, [], [], []⟩

/-- Pure effect of field 11 (visible). -/
def field11d (v : JsVal) (w : WindowState) : Delta :=
  match v with
  | .bool b =>
      if b ≠ w.visible then ⟨{ w with visible := b }, [.Visible b], [], []⟩
      else ⟨w, [], [], []⟩
  | _ => ⟨w, [], [], []⟩

/-- The whole reconciliation of a 12-field reply as a pure fold of the
per-field effects, in index order. -/
def reconcile12 (cfg : Config) (win : WindowState)
    (v0 v1 v2 v3 v4 v5 v6 v7 v8 v9 v10 v11 : JsVal) : FbState :=
  let s0 : FbState := ⟨win, [], [], []⟩
  let s1 := applyDelta s0 (field0d v0 s0.win)
  let s2 := applyDelta s1 (field1d v1 s1.win)
  let s3 := applyDelta s2 (field2d v2 s2.win)
  let s4 := applyDelta s3 (field3d v3 s3.win)
  let s5 := applyDelta s4 (field4d v4 s4.win)
  let s6 := applyDelta s5 (field56d v5 v6 s5.win)
  let s7 := applyDelta s6 (field78d v7 v8 s6.win)
  let s8 := applyDelta s7 (field9d cfg v9 s7.win)
  let s9 := applyDelta s8 (field10d cfg v10 s8.win)
  applyDelta s9 (field11d v11 s9.win)

/-- The originating field index of each command (used to separate the
emissions of distinct fields). -/
def cmdTag : CanvasEvent → Nat
  | .Page _ => 0
  | .Title _ => 1
  | .Close => 2
  | .Fullscreen _ => 3
  | .FrameRate _ => 4
  | .Size _ _ => 5
  | .Position _ _ => 6
  | .Cursor _ => 9
  | .Fit _ => 10
  | .Visible _ => 11
  | .Resized _ _ => 12
  | .Render => 13

/-- The title a reply value dictates: the string itself, or the given
default when the value is not a string. -/
def titleOf (v : JsVal) (dflt : String) : String :=
  match v with
  | .str t => t
  | _ => dflt

/-- The visibility a reply value dictates: the boolean itself, or the
given default when the value is not a boolean. -/
def visibleOf (v : JsVal) (dflt : Bool) : Bool :=
  match v with
  | .bool b => b
  | _ => dflt

/-! ## The animated flag is never written (stateful level, any channel
condition) -/

/-- Predicate: `f` preserves the `animated` flag whatever the outcome. -/
def KeepsAnim (f : FbState → FbRes) : Prop :=
  ∀ s, ((f s).state).win.animated = s.win.animated

/-- The cache states reachable through the operations of the controller:
construction, then any sequence of view attachments, OS events,
OS-detected fullscreen transitions, reply reconciliations and ticks —
under any channel condition and any reply value. -/
inductive Reachable : WindowState → Prop where
  | new (width height : ℚ) : Reachable (Window.new width height)
  | view (viewDpr : ℚ) {s : WindowState} :
      Reachable s → Reachable (new_view s viewDpr)
  | osEvent (cfg : Config) (ev : OsEvent) {s : WindowState} :
      Reachable s → Reachable (((handle_event cfg s ev).state).win)
  | osFullscreen (b : Bool) {s : WindowState} :
      Reachable s → Reachable (went_fullscreen s b).1
  | feedback (cfg : Config) (v : JsVal) {s : WindowState} :
      Reachable s → Reachable (((handle_feedback cfg s v).state).win)
  | tick (cfg : Config) (sieveEmpty : Bool) (response : Option JsVal)
      {s : WindowState} :
      Reachable s →
      Reachable ((((communicate_pending cfg s sieveEmpty response).out).state).win)

/-- Modelled from the spec: the external cursor-style parser
`to_cursor_icon` (`crate::utils`, absent from the sources); recognized
style names resolve to an icon, while the sentinel `"none"` and any
unrecognized name resolve to no icon. -/
def to_cursor_icon (s : String) : Option CursorIcon :=
  if s = "default" then some CursorIcon.Default
  else if s = "pointer" then some (CursorIcon.Named "pointer")
  else none

/-- Modelled from the spec: the external fit-mode parser
`to_canvas_fit` (`crate::utils`, absent from the sources); same
sentinel dynamics as the cursor parser. -/
def to_canvas_fit (s : String) : Option Fit :=
  if s = "contain" then some (Fit.Contain false true)
  else if s = "cover" then some (Fit.Named "cover")
  else none

/-- A live channel environment: command channel open, rendering channel
attached and alive. -/
def cfg0 : Config := ⟨true, some true, to_cursor_icon, to_canvas_fit⟩

/-- A channel environment whose rendering channel is attached but whose
receiving end has been dropped. -/
def cfgRClosed : Config := ⟨true, some false, to_cursor_icon, to_canvas_fit⟩

/-- A freshly constructed 300×150 window cache. -/
def win0 : WindowState := Window.new 300 150

/-- A cache whose resolved cursor style is `None` (as after a prior
`cursor: "none"` round-trip). -/
def winC6 : WindowState := { Window.new 300 150 with cursor := none }

/-- A reply every field of which resolves to the corresponding cached
value of `winC6`, the cursor field being the `"none"` sentinel. -/
def replyC6 : JsVal :=
  .arr [.undefined, .str "", .bool true, .bool false, .num 0, .num 300, .num 150,
    .num 0, .num 0, .str "none", .str "contain", .bool false]

theorem andThen_ok (s : FbState) (f : FbState → FbRes) :
    (FbRes.ok s).andThen f = f s := rfl

theorem atIdx_at (vals : List JsVal) (k : Nat) (v : JsVal)
    (hk : vals.get? k = some v) (f : JsVal → FbState → FbRes) (s : FbState) :
    atIdx vals k f s = f v s := by
  simp only [atIdx, hk]

theorem field0_good (cfg : Config) (hp : cfg.proxyOpen = true) (v : JsVal)
    (s : FbState) : field0 cfg v s = .ok (applyDelta s (field0d v s.win)) := by
  cases v <;> simp_all [field0, field0d, sendProxy, applyDelta]

theorem field1_good (cfg : Config) (hp : cfg.proxyOpen = true) (v : JsVal)
    (s : FbState) : field1 cfg v s = .ok (applyDelta s (field1d v s.win)) := by
  cases v <;> simp only [field1, field1d] <;>
    first
    | (simp [applyDelta]; done)
    | (split <;> simp_all [sendProxy, applyDelta])

theorem field2_good (cfg : Config) (hp : cfg.proxyOpen = true) (v : JsVal)
    (s : FbState) : field2 cfg v s = .ok (applyDelta s (field2d v s.win)) := by
  cases v <;> simp only [field2, field2d] <;>
    first
    | (simp [applyDelta]; done)
    | (split <;> simp_all [sendProxy, applyDelta])

theorem field3_good (cfg : Config) (hj : cfg.jsChannel = some true) (v : JsVal)
    (s : FbState) : field3 cfg v s = .ok (applyDelta s (field3d v s.win)) := by
  cases v <;> simp only [field3, field3d] <;>
    first
    | (simp [applyDelta]; done)
    | (split <;> simp_all [sendRender, applyDelta, FbRes.andThen])

theorem field4_good (cfg : Config) (hp : cfg.proxyOpen = true) (v : JsVal)
    (s : FbState) : field4 cfg v s = .ok (applyDelta s (field4d v s.win)) := by
  cases v <;> simp only [field4, field4d] <;>
    first
    | (simp [applyDelta]; done)
    | (split <;> simp_all [sendProxy, applyDelta])

theorem field56_good (cfg : Config) (hp : cfg.proxyOpen = true)
    (vals : List JsVal) (v5 v6 : JsVal) (h5 : vals.get? 5 = some v5)
    (h6 : vals.get? 6 = some v6) (s : FbState) :
    field56 cfg vals s = .ok (applyDelta s (field56d v5 v6 s.win)) := by
  simp only [field56]
  rw [atIdx_at vals 5 v5 h5]
  cases v5 <;> simp only [field56d] <;>
    first
    | (simp [applyDelta]; done)
    | skip
  rw [atIdx_at vals 6 v6 h6]
  cases v6 <;> simp only [field56inner, field56d] <;>
    first
    | (simp [applyDelta]; done)
    | (split <;> simp_all [sendProxy, applyDelta])

theorem field78_good (cfg : Config) (hp : cfg.proxyOpen = true)
    (vals : List JsVal) (v7 v8 : JsVal) (h7 : vals.get? 7 = some v7)
    (h8 : vals.get? 8 = some v8) (s : FbState) :
    field78 cfg vals s = .ok (applyDelta s (field78d v7 v8 s.win)) := by
  simp only [field78]
  rw [atIdx_at vals 7 v7 h7]
  cases v7 <;> simp only [field78d] <;>
    first
    | (simp [applyDelta]; done)
    | skip
  rw [atIdx_at vals 8 v8 h8]
  cases v8 <;> simp only [field78inner, field78d] <;>
    first
    | (simp [applyDelta]; done)
    | (split <;> simp_all [sendProxy, applyDelta])

theorem field9_good (cfg : Config) (hp : cfg.proxyOpen = true) (v : JsVal)
    (s : FbState) : field9 cfg v s = .ok (applyDelta s (field9d cfg v s.win)) := by
  cases v <;> simp only [field9, field9d] <;>
    first
    | (simp [applyDelta]; done)
    | (split <;> simp_all [sendProxy, applyDelta])

theorem field10_good (cfg : Config) (hp : cfg.proxyOpen = true) (v : JsVal)
    (s : FbState) : field10 cfg v s = .ok (applyDelta s (field10d cfg v s.win)) := by
  cases v <;> simp only [field10, field10d] <;>
    first
    | (simp [applyDelta]; done)
    | (split <;> simp_all [sendProxy, applyDelta])

theorem field11_good (cfg : Config) (hp : cfg.proxyOpen = true) (v : JsVal)
    (s : FbState) : field11 cfg v s = .ok (applyDelta s (field11d v s.win)) := by
  cases v <;> simp only [field11, field11d] <;>
    first
    | (simp [applyDelta]; done)
    | (split <;> simp_all [sendProxy, applyDelta])

/-- With the command channel open and the rendering channel alive, the
stateful reconciliation of a reply of 12 or more fields succeeds and
equals the pure fold `reconcile12` of the per-field effects. -/
theorem handle_feedback_ok (cfg : Config) (win : WindowState)
    (v0 v1 v2 v3 v4 v5 v6 v7 v8 v9 v10 v11 : JsVal) (rest : List JsVal)
    (hp : cfg.proxyOpen = true) (hj : cfg.jsChannel = some true) :
    handle_feedback cfg win
        (.arr (v0 :: v1 :: v2 :: v3 :: v4 :: v5 :: v6 :: v7 :: v8 :: v9 ::
          v10 :: v11 :: rest)) =
      .ok (reconcile12 cfg win v0 v1 v2 v3 v4 v5 v6 v7 v8 v9 v10 v11) := by
  simp only [handle_feedback]
  have h0 : (v0 :: v1 :: v2 :: v3 :: v4 :: v5 :: v6 :: v7 :: v8 :: v9 :: v10 :: v11 :: rest).get? 0 = some v0 := rfl
  have h1 : (v0 :: v1 :: v2 :: v3 :: v4 :: v5 :: v6 :: v7 :: v8 :: v9 :: v10 :: v11 :: rest).get? 1 = some v1 := rfl
  have h2 : (v0 :: v1 :: v2 :: v3 :: v4 :: v5 :: v6 :: v7 :: v8 :: v9 :: v10 :: v11 :: rest).get? 2 = some v2 := rfl
  have h3 : (v0 :: v1 :: v2 :: v3 :: v4 :: v5 :: v6 :: v7 :: v8 :: v9 :: v10 :: v11 :: rest).get? 3 = some v3 := rfl
  have h4 : (v0 :: v1 :: v2 :: v3 :: v4 :: v5 :: v6 :: v7 :: v8 :: v9 :: v10 :: v11 :: rest).get? 4 = some v4 := rfl
  have h5 : (v0 :: v1 :: v2 :: v3 :: v4 :: v5 :: v6 :: v7 :: v8 :: v9 :: v10 :: v11 :: rest).get? 5 = some v5 := rfl
  have h6 : (v0 :: v1 :: v2 :: v3 :: v4 :: v5 :: v6 :: v7 :: v8 :: v9 :: v10 :: v11 :: rest).get? 6 = some v6 := rfl
  have h7 : (v0 :: v1 :: v2 :: v3 :: v4 :: v5 :: v6 :: v7 :: v8 :: v9 :: v10 :: v11 :: rest).get? 7 = some v7 := rfl
  have h8 : (v0 :: v1 :: v2 :: v3 :: v4 :: v5 :: v6 :: v7 :: v8 :: v9 :: v10 :: v11 :: rest).get? 8 = some v8 := rfl
  have h9 : (v0 :: v1 :: v2 :: v3 :: v4 :: v5 :: v6 :: v7 :: v8 :: v9 :: v10 :: v11 :: rest).get? 9 = some v9 := rfl
  have h10 : (v0 :: v1 :: v2 :: v3 :: v4 :: v5 :: v6 :: v7 :: v8 :: v9 :: v10 :: v11 :: rest).get? 10 = some v10 := rfl
  have h11 : (v0 :: v1 :: v2 :: v3 :: v4 :: v5 :: v6 :: v7 :: v8 :: v9 :: v10 :: v11 :: rest).get? 11 = some v11 := rfl
  rw [atIdx_at _ 0 v0 h0, field0_good cfg hp, andThen_ok,
    atIdx_at _ 1 v1 h1, field1_good cfg hp, andThen_ok,
    atIdx_at _ 2 v2 h2, field2_good cfg hp, andThen_ok,
    atIdx_at _ 3 v3 h3, field3_good cfg hj, andThen_ok,
    atIdx_at _ 4 v4 h4, field4_good cfg hp, andThen_ok,
    field56_good cfg hp _ v5 v6 h5 h6, andThen_ok,
    field78_good cfg hp _ v7 v8 h7 h8, andThen_ok,
    atIdx_at _ 9 v9 h9, field9_good cfg hp, andThen_ok,
    atIdx_at _ 10 v10 h10, field10_good cfg hp, andThen_ok,
    atIdx_at _ 11 v11 h11, field11_good cfg hp]
  rfl

/-! ## Frame and shape lemmas for the per-field effects -/

/-- A field effect that leaves the cache alone and emits nothing is the
identity on the threaded state. -/
theorem applyDelta_nil (s : FbState) : applyDelta s ⟨s.win, [], [], []⟩ = s := by
  simp [applyDelta]

theorem field0d_win (v : JsVal) (w : WindowState) : (field0d v w).win = w := by
  cases v <;> rfl

theorem field2d_win (v : JsVal) (w : WindowState) : (field2d v w).win = w := by
  cases v <;> simp only [field2d] <;> (try split) <;> rfl

theorem field1d_position (v : JsVal) (w : WindowState) :
    (field1d v w).win.position = w.position := by
  cases v <;> simp only [field1d] <;> (try split) <;> rfl

theorem field1d_size (v : JsVal) (w : WindowState) :
    (field1d v w).win.size = w.size := by
  cases v <;> simp only [field1d] <;> (try split) <;> rfl

theorem field1d_cursor (v : JsVal) (w : WindowState) :
    (field1d v w).win.cursor = w.cursor := by
  cases v <;> simp only [field1d] <;> (try split) <;> rfl

theorem field1d_fit (v : JsVal) (w : WindowState) :
    (field1d v w).win.fit = w.fit := by
  cases v <;> simp only [field1d] <;> (try split) <;> rfl

theorem field1d_dpr (v : JsVal) (w : WindowState) :
    (field1d v w).win.dpr = w.dpr := by
  cases v <;> simp only [field1d] <;> (try split) <;> rfl

theorem field1d_fullscreen (v : JsVal) (w : WindowState) :
    (field1d v w).win.fullscreen = w.fullscreen := by
  cases v <;> simp only [field1d] <;> (try split) <;> rfl

theorem field1d_visible (v : JsVal) (w : WindowState) :
    (field1d v w).win.visible = w.visible := by
  cases v <;> simp only [field1d] <;> (try split) <;> rfl

theorem field1d_animated (v : JsVal) (w : WindowState) :
    (field1d v w).win.animated = w.animated := by
  cases v <;> simp only [field1d] <;> (try split) <;> rfl

theorem field1d_fps (v : JsVal) (w : WindowState) :
    (field1d v w).win.fps = w.fps := by
  cases v <;> simp only [field1d] <;> (try split) <;> rfl

theorem field3d_position (v : JsVal) (w : WindowState) :
    (field3d v w).win.position = w.position := by
  cases v <;> simp only [field3d] <;> (try split) <;> rfl

theorem field3d_size (v : JsVal) (w : WindowState) :
    (field3d v w).win.size = w.size := by
  cases v <;> simp only [field3d] <;> (try split) <;> rfl

theorem field3d_title (v : JsVal) (w : WindowState) :
    (field3d v w).win.title = w.title := by
  cases v <;> simp only [field3d] <;> (try split) <;> rfl

theorem field3d_cursor (v : JsVal) (w : WindowState) :
    (field3d v w).win.cursor = w.cursor := by
  cases v <;> simp only [field3d] <;> (try split) <;> rfl

theorem field3d_fit (v : JsVal) (w : WindowState) :
    (field3d v w).win.fit = w.fit := by
  cases v <;> simp only [field3d] <;> (try split) <;> rfl

theorem field3d_dpr (v : JsVal) (w : WindowState) :
    (field3d v w).win.dpr = w.dpr := by
  cases v <;> simp only [field3d] <;> (try split) <;> rfl

theorem field3d_visible (v : JsVal) (w : WindowState) :
    (field3d v w).win.visible = w.visible := by
  cases v <;> simp only [field3d] <;> (try split) <;> rfl

theorem field3d_animated (v : JsVal) (w : WindowState) :
    (field3d v w).win.animated = w.animated := by
  cases v <;> simp only [field3d] <;> (try split) <;> rfl

theorem field3d_fps (v : JsVal) (w : WindowState) :
    (field3d v w).win.fps = w.fps := by
  cases v <;> simp only [field3d] <;> (try split) <;> rfl

theorem field4d_position (v : JsVal) (w : WindowState) :
    (field4d v w).win.position = w.position := by
  cases v <;> simp only [field4d] <;> (try split) <;> rfl

theorem field4d_size (v : JsVal) (w : WindowState) :
    (field4d v w).win.size = w.size := by
  cases v <;> simp only [field4d] <;> (try split) <;> rfl

theorem field4d_title (v : JsVal) (w : WindowState) :
    (field4d v w).win.title = w.title := by
  cases v <;> simp only [field4d] <;> (try split) <;> rfl

theorem field4d_cursor (v : JsVal) (w : WindowState) :
    (field4d v w).win.cursor = w.cursor := by
  cases v <;> simp only [field4d] <;> (try split) <;> rfl

theorem field4d_fit (v : JsVal) (w : WindowState) :
    (field4d v w).win.fit = w.fit := by
  cases v <;> simp only [field4d] <;> (try split) <;> rfl

theorem field4d_dpr (v : JsVal) (w : WindowState) :
    (field4d v w).win.dpr = w.dpr := by
  cases v <;> simp only [field4d] <;> (try split) <;> rfl

theorem field4d_fullscreen (v : JsVal) (w : WindowState) :
    (field4d v w).win.fullscreen = w.fullscreen := by
  cases v <;> simp only [field4d] <;> (try split) <;> rfl

theorem field4d_visible (v : JsVal) (w : WindowState) :
    (field4d v w).win.visible = w.visible := by
  cases v <;> simp only [field4d] <;> (try split) <;> rfl

theorem field4d_animated (v : JsVal) (w : WindowState) :
    (field4d v w).win.animated = w.animated := by
  cases v <;> simp only [field4d] <;> (try split) <;> rfl

theorem field56d_position (vw vh : JsVal) (w : WindowState) :
    (field56d vw vh w).win.position = w.position := by
  cases vw <;> cases vh <;> simp only [field56d] <;> (try split) <;> rfl

theorem field56d_title (vw vh : JsVal) (w : WindowState) :
    (field56d vw vh w).win.title = w.title := by
  cases vw <;> cases vh <;> simp only [field56d] <;> (try split) <;> rfl

theorem field56d_cursor (vw vh : JsVal) (w : WindowState) :
    (field56d vw vh w).win.cursor = w.cursor := by
  cases vw <;> cases vh <;> simp only [field56d] <;> (try split) <;> rfl

theorem field56d_fit (vw vh : JsVal) (w : WindowState) :
    (field56d vw vh w).win.fit = w.fit := by
  cases vw <;> cases vh <;> simp only [field56d] <;> (try split) <;> rfl

theorem field56d_dpr (vw vh : JsVal) (w : WindowState) :
    (field56d vw vh w).win.dpr = w.dpr := by
  cases vw <;> cases vh <;> simp only [field56d] <;> (try split) <;> rfl

theorem field56d_fullscreen (vw vh : JsVal) (w : WindowState) :
    (field56d vw vh w).win.fullscreen = w.fullscreen := by
  cases vw <;> cases vh <;> simp only [field56d] <;> (try split) <;> rfl

theorem field56d_visible (vw vh : JsVal) (w : WindowState) :
    (field56d vw vh w).win.visible = w.visible := by
  cases vw <;> cases vh <;> simp only [field56d] <;> (try split) <;> rfl

theorem field56d_animated (vw vh : JsVal) (w : WindowState) :
    (field56d vw vh w).win.animated = w.animated := by
  cases vw <;> cases vh <;> simp only [field56d] <;> (try split) <;> rfl

theorem field56d_fps (vw vh : JsVal) (w : WindowState) :
    (field56d vw vh w).win.fps = w.fps := by
  cases vw <;> cases vh <;> simp only [field56d] <;> (try split) <;> rfl

theorem field78d_size (vx vy : JsVal) (w : WindowState) :
    (field78d vx vy w).win.size = w.size := by
  cases vx <;> cases vy <;> simp only [field78d] <;> (try split) <;> rfl

theorem field78d_title (vx vy : JsVal) (w : WindowState) :
    (field78d vx vy w).win.title = w.title := by
  cases vx <;> cases vy <;> simp only [field78d] <;> (try split) <;> rfl

theorem field78d_cursor (vx vy : JsVal) (w : WindowState) :
    (field78d vx vy w).win.cursor = w.cursor := by
  cases vx <;> cases vy <;> simp only [field78d] <;> (try split) <;> rfl

theorem field78d_fit (vx vy : JsVal) (w : WindowState) :
    (field78d vx vy w).win.fit = w.fit := by
  cases vx <;> cases vy <;> simp only [field78d] <;> (try split) <;> rfl

theorem field78d_dpr (vx vy : JsVal) (w : WindowState) :
    (field78d vx vy w).win.dpr = w.dpr := by
  cases vx <;> cases vy <;> simp only [field78d] <;> (try split) <;> rfl

theorem field78d_fullscreen (vx vy : JsVal) (w : WindowState) :
    (field78d vx vy w).win.fullscreen = w.fullscreen := by
  cases vx <;> cases vy <;> simp only [field78d] <;> (try split) <;> rfl

theorem field78d_visible (vx vy : JsVal) (w : WindowState) :
    (field78d vx vy w).win.visible = w.visible := by
  cases vx <;> cases vy <;> simp only [field78d] <;> (try split) <;> rfl

theorem field78d_animated (vx vy : JsVal) (w : WindowState) :
    (field78d vx vy w).win.animated = w.animated := by
  cases vx <;> cases vy <;> simp only [field78d] <;> (try split) <;> rfl

theorem field78d_fps (vx vy : JsVal) (w : WindowState) :
    (field78d vx vy w).win.fps = w.fps := by
  cases vx <;> cases vy <;> simp only [field78d] <;> (try split) <;> rfl

theorem field9d_position (cfg : Config) (v : JsVal) (w : WindowState) :
    (field9d cfg v w).win.position = w.position := by
  cases v <;> simp only [field9d] <;> (try split) <;> rfl

theorem field9d_size (cfg : Config) (v : JsVal) (w : WindowState) :
    (field9d cfg v w).win.size = w.size := by
  cases v <;> simp only [field9d] <;> (try split) <;> rfl

theorem field9d_title (cfg : Config) (v : JsVal) (w : WindowState) :
    (field9d cfg v w).win.title = w.title := by
  cases v <;> simp only [field9d] <;> (try split) <;> rfl

theorem field9d_fit (cfg : Config) (v : JsVal) (w : WindowState) :
    (field9d cfg v w).win.fit = w.fit := by
  cases v <;> simp only [field9d] <;> (try split) <;> rfl

theorem field9d_dpr (cfg : Config) (v : JsVal) (w : WindowState) :
    (field9d cfg v w).win.dpr = w.dpr := by
  cases v <;> simp only [field9d] <;> (try split) <;> rfl

theorem field9d_fullscreen (cfg : Config) (v : JsVal) (w : WindowState) :
    (field9d cfg v w).win.fullscreen = w.fullscreen := by
  cases v <;> simp only [field9d] <;> (try split) <;> rfl

theorem field9d_visible (cfg : Config) (v : JsVal) (w : WindowState) :
    (field9d cfg v w).win.visible = w.visible := by
  cases v <;> simp only [field9d] <;> (try split) <;> rfl

theorem field9d_animated (cfg : Config) (v : JsVal) (w : WindowState) :
    (field9d cfg v w).win.animated = w.animated := by
  cases v <;> simp only [field9d] <;> (try split) <;> rfl

theorem field9d_fps (cfg : Config) (v : JsVal) (w : WindowState) :
    (field9d cfg v w).win.fps = w.fps := by
  cases v <;> simp only [field9d] <;> (try split) <;> rfl

theorem field10d_position (cfg : Config) (v : JsVal) (w : WindowState) :
    (field10d cfg v w).win.position = w.position := by
  cases v <;> simp only [field10d] <;> (try split) <;> rfl

theorem field10d_size (cfg : Config) (v : JsVal) (w : WindowState) :
    (field10d cfg v w).win.size = w.size := by
  cases v <;> simp only [field10d] <;> (try split) <;> rfl

theorem field10d_title (cfg : Config) (v : JsVal) (w : WindowState) :
    (field10d cfg v w).win.title = w.title := by
  cases v <;> simp only [field10d] <;> (try split) <;> rfl

theorem field10d_cursor (cfg : Config) (v : JsVal) (w : WindowState) :
    (field10d cfg v w).win.cursor = w.cursor := by
  cases v <;> simp only [field10d] <;> (try split) <;> rfl

theorem field10d_dpr (cfg : Config) (v : JsVal) (w : WindowState) :
    (field10d cfg v w).win.dpr = w.dpr := by
  cases v <;> simp only [field10d] <;> (try split) <;> rfl

theorem field10d_fullscreen (cfg : Config) (v : JsVal) (w : WindowState) :
    (field10d cfg v w).win.fullscreen = w.fullscreen := by
  cases v <;> simp only [field10d] <;> (try split) <;> rfl

theorem field10d_visible (cfg : Config) (v : JsVal) (w : WindowState) :
    (field10d cfg v w).win.visible = w.visible := by
  cases v <;> simp only [field10d] <;> (try split) <;> rfl

theorem field10d_animated (cfg : Config) (v : JsVal) (w : WindowState) :
    (field10d cfg v w).win.animated = w.animated := by
  cases v <;> simp only [field10d] <;> (try split) <;> rfl

theorem field10d_fps (cfg : Config) (v : JsVal) (w : WindowState) :
    (field10d cfg v w).win.fps = w.fps := by
  cases v <;> simp only [field10d] <;> (try split) <;> rfl

theorem field11d_position (v : JsVal) (w : WindowState) :
    (field11d v w).win.position = w.position := by
  cases v <;> simp only [field11d] <;> (try split) <;> rfl

theorem field11d_size (v : JsVal) (w : WindowState) :
    (field11d v w).win.size = w.size := by
  cases v <;> simp only [field11d] <;> (try split) <;> rfl

theorem field11d_title (v : JsVal) (w : WindowState) :
    (field11d v w).win.title = w.title := by
  cases v <;> simp only [field11d] <;> (try split) <;> rfl

theorem field11d_cursor (v : JsVal) (w : WindowState) :
    (field11d v w).win.cursor = w.cursor := by
  cases v <;> simp only [field11d] <;> (try split) <;> rfl

theorem field11d_fit (v : JsVal) (w : WindowState) :
    (field11d v w).win.fit = w.fit := by
  cases v <;> simp only [field11d] <;> (try split) <;> rfl

theorem field11d_dpr (v : JsVal) (w : WindowState) :
    (field11d v w).win.dpr = w.dpr := by
  cases v <;> simp only [field11d] <;> (try split) <;> rfl

theorem field11d_fullscreen (v : JsVal) (w : WindowState) :
    (field11d v w).win.fullscreen = w.fullscreen := by
  cases v <;> simp only [field11d] <;> (try split) <;> rfl

theorem field11d_animated (v : JsVal) (w : WindowState) :
    (field11d v w).win.animated = w.animated := by
  cases v <;> simp only [field11d] <;> (try split) <;> rfl

theorem field11d_fps (v : JsVal) (w : WindowState) :
    (field11d v w).win.fps = w.fps := by
  cases v <;> simp only [field11d] <;> (try split) <;> rfl

theorem field0d_rends (v : JsVal) (w : WindowState) : (field0d v w).rends = [] := by
  cases v <;> simp only [field0d] <;> (try split) <;> rfl

theorem field0d_sieve (v : JsVal) (w : WindowState) : (field0d v w).sieve = [] := by
  cases v <;> simp only [field0d] <;> (try split) <;> rfl

theorem field2d_rends (v : JsVal) (w : WindowState) : (field2d v w).rends = [] := by
  cases v <;> simp only [field2d] <;> (try split) <;> rfl

theorem field2d_sieve (v : JsVal) (w : WindowState) : (field2d v w).sieve = [] := by
  cases v <;> simp only [field2d] <;> (try split) <;> rfl

theorem field1d_rends (v : JsVal) (w : WindowState) : (field1d v w).rends = [] := by
  cases v <;> simp only [field1d] <;> (try split) <;> rfl

theorem field1d_sieve (v : JsVal) (w : WindowState) : (field1d v w).sieve = [] := by
  cases v <;> simp only [field1d] <;> (try split) <;> rfl

theorem field4d_rends (v : JsVal) (w : WindowState) : (field4d v w).rends = [] := by
  cases v <;> simp only [field4d] <;> (try split) <;> rfl

theorem field4d_sieve (v : JsVal) (w : WindowState) : (field4d v w).sieve = [] := by
  cases v <;> simp only [field4d] <;> (try split) <;> rfl

theorem field56d_rends (vw vh : JsVal) (w : WindowState) : (field56d vw vh w).rends = [] := by
  cases vw <;> cases vh <;> simp only [field56d] <;> (try split) <;> rfl

theorem field56d_sieve (vw vh : JsVal) (w : WindowState) : (field56d vw vh w).sieve = [] := by
  cases vw <;> cases vh <;> simp only [field56d] <;> (try split) <;> rfl

theorem field78d_rends (vx vy : JsVal) (w : WindowState) : (field78d vx vy w).rends = [] := by
  cases vx <;> cases vy <;> simp only [field78d] <;> (try split) <;> rfl

theorem field78d_sieve (vx vy : JsVal) (w : WindowState) : (field78d vx vy w).sieve = [] := by
  cases vx <;> cases vy <;> simp only [field78d] <;> (try split) <;> rfl

theorem field9d_rends (cfg : Config) (v : JsVal) (w : WindowState) : (field9d cfg v w).rends = [] := by
  cases v <;> simp only [field9d] <;> (try split) <;> rfl

theorem field9d_sieve (cfg : Config) (v : JsVal) (w : WindowState) : (field9d cfg v w).sieve = [] := by
  cases v <;> simp only [field9d] <;> (try split) <;> rfl

theorem field10d_rends (cfg : Config) (v : JsVal) (w : WindowState) : (field10d cfg v w).rends = [] := by
  cases v <;> simp only [field10d] <;> (try split) <;> rfl

theorem field10d_sieve (cfg : Config) (v : JsVal) (w : WindowState) : (field10d cfg v w).sieve = [] := by
  cases v <;> simp only [field10d] <;> (try split) <;> rfl

theorem field11d_rends (v : JsVal) (w : WindowState) : (field11d v w).rends = [] := by
  cases v <;> simp only [field11d] <;> (try split) <;> rfl

theorem field11d_sieve (v : JsVal) (w : WindowState) : (field11d v w).sieve = [] := by
  cases v <;> simp only [field11d] <;> (try split) <;> rfl

theorem field3d_cmds (v : JsVal) (w : WindowState) : (field3d v w).cmds = [] := by
  cases v <;> simp only [field3d] <;> (try split) <;> rfl

theorem field0d_cmds_tag (v : JsVal) (w : WindowState) :
    ∀ e ∈ (field0d v w).cmds, cmdTag e = 0 := by
  intro e he
  cases v <;> simp only [field0d] at he <;> (try split at he) <;> simp_all [cmdTag]

theorem field1d_cmds_tag (v : JsVal) (w : WindowState) :
    ∀ e ∈ (field1d v w).cmds, cmdTag e = 1 := by
  intro e he
  cases v <;> simp only [field1d] at he <;> (try split at he) <;> simp_all [cmdTag]

theorem field2d_cmds_tag (v : JsVal) (w : WindowState) :
    ∀ e ∈ (field2d v w).cmds, cmdTag e = 2 := by
  intro e he
  cases v <;> simp only [field2d] at he <;> (try split at he) <;> simp_all [cmdTag]

theorem field4d_cmds_tag (v : JsVal) (w : WindowState) :
    ∀ e ∈ (field4d v w).cmds, cmdTag e = 4 := by
  intro e he
  cases v <;> simp only [field4d] at he <;> (try split at he) <;> simp_all [cmdTag]

theorem field56d_cmds_tag (vw vh : JsVal) (w : WindowState) :
    ∀ e ∈ (field56d vw vh w).cmds, cmdTag e = 5 := by
  intro e he
  cases vw <;> cases vh <;> simp only [field56d] at he <;> (try split at he) <;> simp_all [cmdTag]

theorem field78d_cmds_tag (vx vy : JsVal) (w : WindowState) :
    ∀ e ∈ (field78d vx vy w).cmds, cmdTag e = 6 := by
  intro e he
  cases vx <;> cases vy <;> simp only [field78d] at he <;> (try split at he) <;> simp_all [cmdTag]

theorem field9d_cmds_tag (cfg : Config) (v : JsVal) (w : WindowState) :
    ∀ e ∈ (field9d cfg v w).cmds, cmdTag e = 9 := by
  intro e he
  cases v <;> simp only [field9d] at he <;> (try split at he) <;> simp_all [cmdTag]

theorem field10d_cmds_tag (cfg : Config) (v : JsVal) (w : WindowState) :
    ∀ e ∈ (field10d cfg v w).cmds, cmdTag e = 10 := by
  intro e he
  cases v <;> simp only [field10d] at he <;> (try split at he) <;> simp_all [cmdTag]

theorem field11d_cmds_tag (v : JsVal) (w : WindowState) :
    ∀ e ∈ (field11d v w).cmds, cmdTag e = 11 := by
  intro e he
  cases v <;> simp only [field11d] at he <;> (try split at he) <;> simp_all [cmdTag]

/-! ## Skip and activation lemmas for the per-field effects -/

theorem field0d_skip (v : JsVal) (w : WindowState) (h : ∀ p, v ≠ JsVal.context p) :
    field0d v w = ⟨w, [], [], []⟩ := by
  cases v
  case context p => exact absurd rfl (h p)
  all_goals rfl

theorem field1d_skip (w : WindowState) :
    field1d (.str w.title) w = ⟨w, [], [], []⟩ := by
  simp [field1d]

theorem field2d_skip (v : JsVal) (w : WindowState) (h : v ≠ JsVal.bool false) :
    field2d v w = ⟨w, [], [], []⟩ := by
  cases v
  case bool b =>
    cases b
    · exact absurd rfl h
    · rfl
  all_goals rfl

theorem field3d_skip (w : WindowState) :
    field3d (.bool w.fullscreen) w = ⟨w, [], [], []⟩ := by
  simp [field3d]

theorem field4d_skip (q : ℚ) (w : WindowState) (h : f64_as_u64 q = w.fps) :
    field4d (.num q) w = ⟨w, [], [], []⟩ := by
  simp [field4d, h]

theorem field56d_skip (qw qh : ℚ) (w : WindowState)
    (h : (f64_as_u32 qw, f64_as_u32 qh) = w.size) :
    field56d (.num qw) (.num qh) w = ⟨w, [], [], []⟩ := by
  simp [field56d, h]

theorem field78d_skip (qx qy : ℚ) (w : WindowState)
    (h : (f64_as_i32 qx, f64_as_i32 qy) = w.position) :
    field78d (.num qx) (.num qy) w = ⟨w, [], [], []⟩ := by
  simp [field78d, h]

theorem field9d_skip (cfg : Config) (s : String) (w : WindowState)
    (h1 : cfg.toCursorIcon s = w.cursor) (h2 : s ≠ "none") :
    field9d cfg (.str s) w = ⟨w, [], [], []⟩ := by
  simp [field9d, h1, h2]

theorem field9d_unrec (cfg : Config) (s : String) (w : WindowState)
    (h1 : cfg.toCursorIcon s = none) (h2 : s ≠ "none") :
    field9d cfg (.str s) w = ⟨w, [], [], []⟩ := by
  simp [field9d, h1, h2]

theorem field9d_none (cfg : Config) (w : WindowState)
    (h : cfg.toCursorIcon "none" = none) :
    field9d cfg (.str "none") w =
      ⟨{ w with cursor := none }, [.Cursor none], [], []⟩ := by
  simp [field9d, h]

theorem field10d_skip (cfg : Config) (s : String) (w : WindowState)
    (h1 : cfg.toCanvasFit s = w.fit) (h2 : s ≠ "none") :
    field10d cfg (.str s) w = ⟨w, [], [], []⟩ := by
  simp [field10d, h1, h2]

theorem field11d_skip (w : WindowState) :
    field11d (.bool w.visible) w = ⟨w, [], [], []⟩ := by
  simp [field11d]

theorem field2d_bool (b : Bool) (w : WindowState) :
    field2d (.bool b) w = if b then ⟨w, [], [], []⟩ else ⟨w, [.Close], [], []⟩ := rfl

theorem field3d_bool (b : Bool) (w : WindowState) :
    field3d (.bool b) w =
      if b ≠ w.fullscreen then
        ⟨{ w with fullscreen := b }, [], [.Fullscreen b], [.goFullscreen b]⟩
      else ⟨w, [], [], []⟩ := rfl

theorem field4d_fps_num (q : ℚ) (w : WindowState) :
    (field4d (.num q) w).win.fps = f64_as_u64 q := by
  simp only [field4d]
  split <;> simp_all

theorem field11d_visible_bool (b : Bool) (w : WindowState) :
    (field11d (.bool b) w).win.visible = b := by
  simp only [field11d]
  split <;> simp_all

theorem field1d_title (v : JsVal) (w : WindowState) :
    (field1d v w).win.title = titleOf v w.title := by
  cases v <;> simp only [field1d, titleOf] <;> (try split) <;> simp_all

theorem andThen_anim (r : FbRes) (f : FbState → FbRes) (hf : KeepsAnim f) :
    ((r.andThen f).state).win.animated = (r.state).win.animated := by
  cases r <;> first | rfl | exact hf _

theorem sendProxy_anim (cfg : Config) (ev : CanvasEvent) :
    KeepsAnim (sendProxy cfg ev) := by
  intro s
  simp only [sendProxy]
  split <;> rfl

theorem sendRender_anim (cfg : Config) (ev : CanvasEvent) :
    KeepsAnim (sendRender cfg ev) := by
  intro s
  simp only [sendRender]
  cases hc : cfg.jsChannel
  · rfl
  · next b => cases b <;> rfl

theorem atIdx_anim (vals : List JsVal) (k : Nat) (f : JsVal → FbState → FbRes)
    (hf : ∀ v, KeepsAnim (f v)) : KeepsAnim (atIdx vals k f) := by
  intro s
  simp only [atIdx]
  cases vals.get? k
  · rfl
  · exact hf _ s

theorem field0_anim (cfg : Config) (v : JsVal) : KeepsAnim (field0 cfg v) := by
  intro s
  cases v <;> simp only [field0] <;>
    first
    | rfl
    | exact (sendProxy_anim cfg _ _).trans rfl

theorem field1_anim (cfg : Config) (v : JsVal) : KeepsAnim (field1 cfg v) := by
  intro s
  cases v <;> simp only [field1] <;> (try split) <;>
    first
    | rfl
    | exact (sendProxy_anim cfg _ _).trans rfl

theorem field2_anim (cfg : Config) (v : JsVal) : KeepsAnim (field2 cfg v) := by
  intro s
  cases v <;> simp only [field2] <;> (try split) <;>
    first
    | rfl
    | exact (sendProxy_anim cfg _ _).trans rfl

theorem field3_anim (cfg : Config) (v : JsVal) : KeepsAnim (field3 cfg v) := by
  intro s
  cases v <;> simp only [field3] <;> try rfl
  split
  · refine (andThen_anim _ _ ?_).trans ((sendRender_anim cfg _ _).trans rfl)
    intro s2
    rfl
  · rfl

theorem field4_anim (cfg : Config) (v : JsVal) : KeepsAnim (field4 cfg v) := by
  intro s
  cases v <;> simp only [field4] <;> (try split) <;>
    first
    | rfl
    | exact (sendProxy_anim cfg _ _).trans rfl

theorem field56_anim (cfg : Config) (vals : List JsVal) :
    KeepsAnim (field56 cfg vals) := by
  have hinner : ∀ q v2, KeepsAnim (field56inner cfg q v2) := by
    intro q v2 s2
    cases v2 <;> simp only [field56inner] <;> (try split) <;>
      first
      | rfl
      | exact (sendProxy_anim cfg _ _).trans rfl
  intro s
  simp only [field56]
  refine atIdx_anim vals 5 _ ?_ s
  intro v
  cases v <;> try exact fun s2 => rfl
  case num q => exact atIdx_anim vals 6 _ (hinner q)

theorem field78_anim (cfg : Config) (vals : List JsVal) :
    KeepsAnim (field78 cfg vals) := by
  have hinner : ∀ q v2, KeepsAnim (field78inner cfg q v2) := by
    intro q v2 s2
    cases v2 <;> simp only [field78inner] <;> (try split) <;>
      first
      | rfl
      | exact (sendProxy_anim cfg _ _).trans rfl
  intro s
  simp only [field78]
  refine atIdx_anim vals 7 _ ?_ s
  intro v
  cases v <;> try exact fun s2 => rfl
  case num q => exact atIdx_anim vals 8 _ (hinner q)

theorem field9_anim (cfg : Config) (v : JsVal) : KeepsAnim (field9 cfg v) := by
  intro s
  cases v <;> simp only [field9] <;> (try split) <;>
    first
    | rfl
    | exact (sendProxy_anim cfg _ _).trans rfl

theorem field10_anim (cfg : Config) (v : JsVal) : KeepsAnim (field10 cfg v) := by
  intro s
  cases v <;> simp only [field10] <;> (try split) <;>
    first
    | rfl
    | exact (sendProxy_anim cfg _ _).trans rfl

theorem field11_anim (cfg : Config) (v : JsVal) : KeepsAnim (field11 cfg v) := by
  intro s
  cases v <;> simp only [field11] <;> (try split) <;>
    first
    | rfl
    | exact (sendProxy_anim cfg _ _).trans rfl

theorem handle_feedback_anim (cfg : Config) (win : WindowState) (v : JsVal) :
    (((handle_feedback cfg win v).state).win).animated = win.animated := by
  cases v <;> try rfl
  case arr vals =>
    simp only [handle_feedback]
    rw [andThen_anim _ _ (atIdx_anim vals 11 _ (field11_anim cfg)),
      andThen_anim _ _ (atIdx_anim vals 10 _ (field10_anim cfg)),
      andThen_anim _ _ (atIdx_anim vals 9 _ (field9_anim cfg)),
      andThen_anim _ _ (field78_anim cfg vals),
      andThen_anim _ _ (field56_anim cfg vals),
      andThen_anim _ _ (atIdx_anim vals 4 _ (field4_anim cfg)),
      andThen_anim _ _ (atIdx_anim vals 3 _ (field3_anim cfg)),
      andThen_anim _ _ (atIdx_anim vals 2 _ (field2_anim cfg)),
      andThen_anim _ _ (atIdx_anim vals 1 _ (field1_anim cfg))]
    exact atIdx_anim vals 0 _ (field0_anim cfg) _

theorem handle_event_anim (cfg : Config) (win : WindowState) (ev : OsEvent) :
    (((handle_event cfg win ev).state).win).animated = win.animated := by
  have hcap :
      KeepsAnim (fun s => FbRes.ok { s with sieve := s.sieve ++ [SieveCall.capture] }) :=
    fun s => rfl
  cases ev <;> simp only [handle_event] <;> rw [andThen_anim _ _ hcap] <;>
    first
    | rfl
    | exact (sendRender_anim cfg _ _).trans rfl

theorem communicate_anim (cfg : Config) (win : WindowState)
    (response : Option JsVal) :
    (((communicate cfg win response).state).win).animated = win.animated := by
  cases response
  · rfl
  case some v =>
    simp only [communicate]
    have h := handle_feedback_anim cfg win v
    cases hf : handle_feedback cfg win v <;> rw [hf] at h <;>
      simpa [FbRes.state, CommOut.state] using h

theorem communicate_pending_anim (cfg : Config) (win : WindowState)
    (sieveEmpty : Bool) (response : Option JsVal) :
    ((((communicate_pending cfg win sieveEmpty response).out).state).win).animated =
      win.animated := by
  cases sieveEmpty
  · exact communicate_anim cfg win response
  · rfl

/-! ## Further helpers for the claims -/

theorem field11d_visible (v : JsVal) (w : WindowState) :
    (field11d v w).win.visible = visibleOf v w.visible := by
  cases v <;> simp only [field11d, visibleOf] <;> (try split) <;> simp_all

theorem field56d_size_num (qw qh : ℚ) (w : WindowState) :
    (field56d (.num qw) (.num qh) w).win.size = (f64_as_u32 qw, f64_as_u32 qh) := by
  simp only [field56d]
  split <;> simp_all

theorem field78d_position_num (qx qy : ℚ) (w : WindowState) :
    (field78d (.num qx) (.num qy) w).win.position = (f64_as_i32 qx, f64_as_i32 qy) := by
  simp only [field78d]
  split <;> simp_all

theorem notmem_append (e : CanvasEvent) (l1 l2 : List CanvasEvent)
    (h1 : e ∉ l1) (h2 : e ∉ l2) : e ∉ l1 ++ l2 := by
  simp [List.mem_append, h1, h2]

/-! ## Claims -/

/-- C7: when the Event Collector reports empty, the per-tick entry
point returns `Poll` immediately, does not invoke the script callback,
leaves the cached window state untouched and emits nothing on any
channel. -/
theorem C7_empty_batch_fast_path (cfg : Config) (win : WindowState)
    (response : Option JsVal) :
    communicate_pending cfg win true response =
      ⟨.ret .Poll ⟨win, [], [], []⟩, false⟩ := rfl

/-- C9: the `animated` flag of the cache is `false` at construction and
no operation of the controller (view attachment, OS-event ingestion,
OS fullscreen transition, reply reconciliation, tick) ever writes it:
it is `false` in every reachable cache state. -/
theorem C9_animated_never_set (s : WindowState) (h : Reachable s) :
    s.animated = false := by
  induction h with
  | new width height => rfl
  | view viewDpr _ ih => exact ih
  | osEvent cfg ev _ ih => rw [handle_event_anim]; exact ih
  | osFullscreen b _ ih =>
      unfold went_fullscreen
      split <;> simpa using ih
  | feedback cfg v _ ih => rw [handle_feedback_anim]; exact ih
  | tick cfg sieveEmpty response _ ih => rw [communicate_pending_anim]; exact ih

/-- C9 witness: the invariant at a freshly constructed cache. -/
theorem C9_animated_never_set_witness : (Window.new 300 150).animated = false :=
  C9_animated_never_set _ (Reachable.new 300 150)

/-- C1 counterexample: at a concrete non-sequence reply the full cycle
returns `Poll`, not `Exit` as the claim states (the cache is indeed
left unchanged). -/
theorem C1_counterexample :
    communicate cfg0 win0 (some (JsVal.str "nope")) =
      .ret .Poll ⟨win0, [], [], []⟩ ∧
    (communicate cfg0 win0 (some (JsVal.str "nope"))).isExit = false :=
  ⟨rfl, rfl⟩

/-- C1 amended: a reply that fails to downcast to an array makes the
full-cycle branch return `Poll` — reconciliation silently ignores the
malformed reply — and no cached field is modified, nothing is
emitted. -/
theorem C1_nonarray_poll (cfg : Config) (win : WindowState) (v : JsVal)
    (h : v.isArr = false) :
    communicate cfg win (some v) = .ret .Poll ⟨win, [], [], []⟩ := by
  cases v <;> simp [communicate, handle_feedback] <;> simp [JsVal.isArr] at h

/-- C1 witness: the amended theorem at a concrete string reply. -/
theorem C1_nonarray_poll_witness :
    (JsVal.str "nope").isArr = false ∧
    communicate cfg0 win0 (some (JsVal.str "nope")) =
      .ret .Poll ⟨win0, [], [], []⟩ :=
  ⟨rfl, C1_nonarray_poll cfg0 win0 _ rfl⟩

/-- C2 counterexample: reconciling the empty sequence does not skip the
missing fields — it aborts with an out-of-bounds panic at the first
positional index. -/
theorem C2_counterexample :
    handle_feedback cfg0 win0 (.arr []) = .panicked ⟨win0, [], [], []⟩ ∧
    (handle_feedback cfg0 win0 (.arr [])).isOk = false :=
  ⟨rfl, rfl⟩

/-- C2 amended: for a reply sequence with at least 12 elements, absence
or type-mismatch at any field position is non-fatal: with live channels
reconciliation always returns success, a skipped field signals no
error, and every remaining position is still processed whatever the
shape of the other fields (the title and visible fields take effect
regardless of all others).  A sequence with fewer than 12 elements
instead aborts with an out-of-bounds panic. -/
theorem C2_field_skip_nonfatal (cfg : Config) (win : WindowState)
    (v0 v1 v2 v3 v4 v5 v6 v7 v8 v9 v10 v11 : JsVal) (rest vals : List JsVal)
    (hv : vals = v0 :: v1 :: v2 :: v3 :: v4 :: v5 :: v6 :: v7 :: v8 :: v9 ::
      v10 :: v11 :: rest)
    (hp : cfg.proxyOpen = true) (hj : cfg.jsChannel = some true) :
    (handle_feedback cfg win (.arr vals)).isOk = true ∧
    ((handle_feedback cfg win (.arr vals)).state).win.title =
      titleOf v1 win.title ∧
    ((handle_feedback cfg win (.arr vals)).state).win.visible =
      visibleOf v11 win.visible := by
  subst hv
  rw [handle_feedback_ok cfg win v0 v1 v2 v3 v4 v5 v6 v7 v8 v9 v10 v11 rest hp hj]
  refine ⟨rfl, ?_, ?_⟩
  · simp only [reconcile12, applyDelta, FbRes.state, field11d_title, field10d_title,
      field9d_title, field78d_title, field56d_title, field4d_title, field3d_title,
      field2d_win, field1d_title, field0d_win]
  · simp only [reconcile12, applyDelta, FbRes.state, field11d_visible,
      field10d_visible, field9d_visible, field78d_visible, field56d_visible,
      field4d_visible, field3d_visible, field2d_win, field1d_visible, field0d_win]

/-- C2 witness: an all-mismatched reply of 12 fields reconciles
successfully, and its last field still takes effect. -/
theorem C2_field_skip_nonfatal_witness :
    cfg0.proxyOpen = true ∧ cfg0.jsChannel = some true ∧
    (handle_feedback cfg0 win0 (.arr (JsVal.undefined :: .undefined :: .undefined ::
      .undefined :: .undefined :: .undefined :: .undefined :: .undefined ::
      .undefined :: .undefined :: .undefined :: .bool true :: []))).isOk = true :=
  ⟨rfl, rfl,
    (C2_field_skip_nonfatal cfg0 win0 _ _ _ _ _ _ _ _ _ _ _ _ [] _ rfl rfl rfl).1⟩

/-- C3 counterexample: an OS resize with the rendering channel attached
but closed panics at the forwarding `unwrap` — the controller itself
does fail, contrary to the claim — though the cached size has been
updated first. -/
theorem C3_counterexample :
    (handle_event cfgRClosed win0 (.Resized 800 600)).isOk = false ∧
    handle_event cfgRClosed win0 (.Resized 800 600) =
      .panicked ⟨{ win0 with
        size := (logical_of_physical 800 win0.dpr, logical_of_physical 600 win0.dpr) },
        [], [], []⟩ ∧
    logical_of_physical 800 win0.dpr = 800 ∧
    logical_of_physical 600 win0.dpr = 600 := by
  refine ⟨rfl, rfl, ?_, ?_⟩ <;> norm_num [logical_of_physical, win0, Window.new] <;> rfl

/-- C3 amended: for an OS resize event the cached size is always
updated from the physical size via the device-pixel-ratio before the
forward is attempted; when the rendering channel is attached but
closed, the subsequent `unwrap` panics, so the failure is not confined
to the notification; when the channel is alive the `Resized`
notification is forwarded and nothing fails. -/
theorem C3_resize_channel (cfg : Config) (win : WindowState) (w h : Nat) :
    (((handle_event cfg win (.Resized w h)).state).win).size =
      (logical_of_physical w win.dpr, logical_of_physical h win.dpr) ∧
    (cfg.jsChannel = some false →
      handle_event cfg win (.Resized w h) =
        .panicked ⟨{ win with
          size := (logical_of_physical w win.dpr, logical_of_physical h win.dpr) },
          [], [], []⟩) ∧
    (cfg.jsChannel = some true →
      handle_event cfg win (.Resized w h) =
        .ok ⟨{ win with
          size := (logical_of_physical w win.dpr, logical_of_physical h win.dpr) },
          [], [CanvasEvent.Resized w h], [SieveCall.capture]⟩) := by
  refine ⟨?_, fun hc => ?_, fun hc => ?_⟩
  · simp only [handle_event, sendRender]
    cases hc : cfg.jsChannel with
    | none => rfl
    | some b => cases b <;> rfl
  · simp [handle_event, sendRender, hc, FbRes.andThen]
  · simp [handle_event, sendRender, hc, FbRes.andThen]

/-- C3 witness: the amended theorem at a closed rendering channel and a
concrete resize. -/
theorem C3_resize_channel_witness :
    cfgRClosed.jsChannel = some false ∧
    handle_event cfgRClosed win0 (.Resized 800 600) =
      .panicked ⟨{ win0 with
        size := (logical_of_physical 800 win0.dpr, logical_of_physical 600 win0.dpr) },
        [], [], []⟩ :=
  ⟨rfl, (C3_resize_channel cfgRClosed win0 800 600).2.1 rfl⟩

/-- C4: with live channels, a reply whose field 3 is a boolean
differing from the cached fullscreen flag makes reconciliation set the
cached flag to that boolean, send exactly one `Fullscreen` notification
on the rendering channel, notify the Event Collector exactly once, and
send no fullscreen event on the native command channel; when the
boolean equals the cached flag, nothing is sent on the rendering
channel or the Event Collector, and still no fullscreen event appears
on the command channel. -/
theorem C4_fullscreen_routing (cfg : Config) (win : WindowState)
    (v0 v1 v2 v4 v5 v6 v7 v8 v9 v10 v11 : JsVal) (rest vals : List JsVal) (b : Bool)
    (hv : vals = v0 :: v1 :: v2 :: .bool b :: v4 :: v5 :: v6 :: v7 :: v8 :: v9 ::
      v10 :: v11 :: rest)
    (hp : cfg.proxyOpen = true) (hj : cfg.jsChannel = some true) :
    (b ≠ win.fullscreen →
      (((handle_feedback cfg win (.arr vals)).state).win).fullscreen = b ∧
      ((handle_feedback cfg win (.arr vals)).state).rends =
        [CanvasEvent.Fullscreen b] ∧
      ((handle_feedback cfg win (.arr vals)).state).sieve =
        [SieveCall.goFullscreen b]) ∧
    (b = win.fullscreen →
      (((handle_feedback cfg win (.arr vals)).state).win).fullscreen =
        win.fullscreen ∧
      ((handle_feedback cfg win (.arr vals)).state).rends = [] ∧
      ((handle_feedback cfg win (.arr vals)).state).sieve = []) ∧
    (∀ c, CanvasEvent.Fullscreen c ∉
      ((handle_feedback cfg win (.arr vals)).state).cmds) := by
  subst hv
  rw [handle_feedback_ok cfg win _ _ _ _ _ _ _ _ _ _ _ _ rest hp hj]
  refine ⟨fun hne => ?_, fun heq => ?_, fun c hc => ?_⟩
  · refine ⟨?_, ?_, ?_⟩ <;>
      simp [reconcile12, applyDelta, FbRes.state, field3d_bool,
        field11d_fullscreen, field10d_fullscreen, field9d_fullscreen,
        field78d_fullscreen, field56d_fullscreen, field4d_fullscreen,
        field2d_win, field1d_fullscreen, field0d_win,
        field0d_rends, field1d_rends, field2d_rends, field4d_rends,
        field56d_rends, field78d_rends, field9d_rends, field10d_rends,
        field11d_rends, field0d_sieve, field1d_sieve, field2d_sieve,
        field4d_sieve, field56d_sieve, field78d_sieve, field9d_sieve,
        field10d_sieve, field11d_sieve, hne]
  · refine ⟨?_, ?_, ?_⟩ <;>
      simp [reconcile12, applyDelta, FbRes.state, field3d_bool,
        field11d_fullscreen, field10d_fullscreen, field9d_fullscreen,
        field78d_fullscreen, field56d_fullscreen, field4d_fullscreen,
        field2d_win, field1d_fullscreen, field0d_win,
        field0d_rends, field1d_rends, field2d_rends, field4d_rends,
        field56d_rends, field78d_rends, field9d_rends, field10d_rends,
        field11d_rends, field0d_sieve, field1d_sieve, field2d_sieve,
        field4d_sieve, field56d_sieve, field78d_sieve, field9d_sieve,
        field10d_sieve, field11d_sieve, heq]
  · revert hc
    simp only [reconcile12, applyDelta, FbRes.state]
    apply notmem_append
    apply notmem_append
    apply notmem_append
    apply notmem_append
    apply notmem_append
    apply notmem_append
    apply notmem_append
    apply notmem_append
    apply notmem_append
    apply notmem_append
    all_goals
      first
      | exact List.not_mem_nil _
      | simp [field3d_cmds]
      | (intro hmem
         first
         | exact absurd (field0d_cmds_tag _ _ _ hmem) (by simp [cmdTag])
         | exact absurd (field1d_cmds_tag _ _ _ hmem) (by simp [cmdTag])
         | exact absurd (field2d_cmds_tag _ _ _ hmem) (by simp [cmdTag])
         | exact absurd (field4d_cmds_tag _ _ _ hmem) (by simp [cmdTag])
         | exact absurd (field56d_cmds_tag _ _ _ _ hmem) (by simp [cmdTag])
         | exact absurd (field78d_cmds_tag _ _ _ _ hmem) (by simp [cmdTag])
         | exact absurd (field9d_cmds_tag _ _ _ _ hmem) (by simp [cmdTag])
         | exact absurd (field10d_cmds_tag _ _ _ _ hmem) (by simp [cmdTag])
         | exact absurd (field11d_cmds_tag _ _ _ hmem) (by simp [cmdTag]))

/-- C4 witness: a `true` fullscreen request against a non-fullscreen
cache lands on the rendering channel. -/
theorem C4_fullscreen_routing_witness :
    cfg0.proxyOpen = true ∧ cfg0.jsChannel = some true ∧
    ((handle_feedback cfg0 win0 (.arr (JsVal.undefined :: .undefined :: .undefined ::
      .bool true :: .undefined :: .undefined :: .undefined :: .undefined ::
      .undefined :: .undefined :: .undefined :: .undefined :: []))).state).rends =
      [CanvasEvent.Fullscreen true] :=
  ⟨rfl, rfl,
    ((C4_fullscreen_routing cfg0 win0 _ _ _ _ _ _ _ _ _ _ _ [] _ true rfl rfl rfl).1
      (by decide)).2.1⟩

/-- C5: with live channels, a field-9 string `"none"` (whose resolved
style is no icon) always sets the cached cursor to `None` and emits a
cursor-unset command on the command channel, whatever the cached cursor
was — in particular also when it was already `None`; a field-9 string
that resolves to no recognized style and is not `"none"` emits no
cursor command and leaves the cached cursor unchanged. -/
theorem C5_cursor_sentinel (cfg : Config) (win : WindowState)
    (v0 v1 v2 v3 v4 v5 v6 v7 v8 v10 v11 : JsVal) (rest vals : List JsVal)
    (s9 : String)
    (hv : vals = v0 :: v1 :: v2 :: v3 :: v4 :: v5 :: v6 :: v7 :: v8 :: .str s9 ::
      v10 :: v11 :: rest)
    (hp : cfg.proxyOpen = true) (hj : cfg.jsChannel = some true) :
    (s9 = "none" → cfg.toCursorIcon "none" = none →
      (((handle_feedback cfg win (.arr vals)).state).win).cursor = none ∧
      CanvasEvent.Cursor none ∈
        ((handle_feedback cfg win (.arr vals)).state).cmds) ∧
    (cfg.toCursorIcon s9 = none → s9 ≠ "none" →
      (((handle_feedback cfg win (.arr vals)).state).win).cursor = win.cursor ∧
      ∀ c, CanvasEvent.Cursor c ∉
        ((handle_feedback cfg win (.arr vals)).state).cmds) := by
  subst hv
  rw [handle_feedback_ok cfg win _ _ _ _ _ _ _ _ _ _ _ _ rest hp hj]
  constructor
  · intro hs hn
    subst hs
    have h9 : ∀ w, field9d cfg (.str "none") w =
        ⟨{ w with cursor := none }, [CanvasEvent.Cursor none], [], []⟩ :=
      fun w => field9d_none cfg w hn
    constructor
    · simp [reconcile12, applyDelta, FbRes.state, h9, field11d_cursor,
        field10d_cursor]
    · simp [reconcile12, applyDelta, FbRes.state, h9, List.mem_append]
  · intro hn hs
    have h9 : ∀ w, field9d cfg (.str s9) w = ⟨w, [], [], []⟩ :=
      fun w => field9d_unrec cfg s9 w hn hs
    constructor
    · simp [reconcile12, applyDelta, FbRes.state, h9, field11d_cursor,
        field10d_cursor, field78d_cursor, field56d_cursor, field4d_cursor,
        field3d_cursor, field2d_win, field1d_cursor, field0d_win]
    · intro c hc
      revert hc
      simp only [reconcile12, applyDelta, FbRes.state, h9]
      apply notmem_append
      apply notmem_append
      apply notmem_append
      apply notmem_append
      apply notmem_append
      apply notmem_append
      apply notmem_append
      apply notmem_append
      apply notmem_append
      apply notmem_append
      all_goals
        first
        | exact List.not_mem_nil _
        | simp [field3d_cmds]
        | (intro hmem
           first
           | exact absurd (field0d_cmds_tag _ _ _ hmem) (by simp [cmdTag])
           | exact absurd (field1d_cmds_tag _ _ _ hmem) (by simp [cmdTag])
           | exact absurd (field2d_cmds_tag _ _ _ hmem) (by simp [cmdTag])
           | exact absurd (field4d_cmds_tag _ _ _ hmem) (by simp [cmdTag])
           | exact absurd (field56d_cmds_tag _ _ _ _ hmem) (by simp [cmdTag])
           | exact absurd (field78d_cmds_tag _ _ _ _ hmem) (by simp [cmdTag])
           | exact absurd (field9d_cmds_tag _ _ _ _ hmem) (by simp [cmdTag])
           | exact absurd (field10d_cmds_tag _ _ _ _ hmem) (by simp [cmdTag])
           | exact absurd (field11d_cmds_tag _ _ _ hmem) (by simp [cmdTag]))

/-- C5 witness: against the default cursor cache, a `"none"` cursor
field emits the unset command; an unrecognized style emits nothing. -/
theorem C5_cursor_sentinel_witness :
    cfg0.toCursorIcon "none" = none ∧
    CanvasEvent.Cursor none ∈
      ((handle_feedback cfg0 win0 (.arr (JsVal.undefined :: .undefined :: .undefined ::
        .undefined :: .undefined :: .undefined :: .undefined :: .undefined ::
        .undefined :: .str "none" :: .undefined :: .undefined :: []))).state).cmds :=
  ⟨rfl,
    ((C5_cursor_sentinel cfg0 win0 _ _ _ _ _ _ _ _ _ _ _ [] _ "none" rfl rfl rfl).1
      rfl rfl).2⟩

/-- C8: with live channels, a reply whose field 2 is the boolean
`false` makes reconciliation emit a close command on the command
channel, whatever the cached state — there is no cached counterpart and
no change test; when field 2 is `true`, absent, or of another type, no
close command is emitted. -/
theorem C8_close_semantics (cfg : Config) (win : WindowState)
    (v0 v1 v2 v3 v4 v5 v6 v7 v8 v9 v10 v11 : JsVal) (rest vals : List JsVal)
    (hv : vals = v0 :: v1 :: v2 :: v3 :: v4 :: v5 :: v6 :: v7 :: v8 :: v9 ::
      v10 :: v11 :: rest)
    (hp : cfg.proxyOpen = true) (hj : cfg.jsChannel = some true) :
    (v2 = JsVal.bool false →
      CanvasEvent.Close ∈ ((handle_feedback cfg win (.arr vals)).state).cmds) ∧
    (v2 ≠ JsVal.bool false →
      CanvasEvent.Close ∉ ((handle_feedback cfg win (.arr vals)).state).cmds) := by
  subst hv
  rw [handle_feedback_ok cfg win _ _ _ _ _ _ _ _ _ _ _ _ rest hp hj]
  constructor
  · intro h2
    subst h2
    simp [reconcile12, applyDelta, FbRes.state, field2d_bool, List.mem_append]
  · intro h2 hc
    revert hc
    have e2 : ∀ w, field2d v2 w = ⟨w, [], [], []⟩ := fun w => field2d_skip v2 w h2
    simp only [reconcile12, applyDelta, FbRes.state, e2]
    apply notmem_append
    apply notmem_append
    apply notmem_append
    apply notmem_append
    apply notmem_append
    apply notmem_append
    apply notmem_append
    apply notmem_append
    apply notmem_append
    apply notmem_append
    all_goals
      first
      | exact List.not_mem_nil _
      | simp [field3d_cmds]
      | (intro hmem
         first
         | exact absurd (field0d_cmds_tag _ _ _ hmem) (by simp [cmdTag])
         | exact absurd (field1d_cmds_tag _ _ _ hmem) (by simp [cmdTag])
         | exact absurd (field2d_cmds_tag _ _ _ hmem) (by simp [cmdTag])
         | exact absurd (field4d_cmds_tag _ _ _ hmem) (by simp [cmdTag])
         | exact absurd (field56d_cmds_tag _ _ _ _ hmem) (by simp [cmdTag])
         | exact absurd (field78d_cmds_tag _ _ _ _ hmem) (by simp [cmdTag])
         | exact absurd (field9d_cmds_tag _ _ _ _ hmem) (by simp [cmdTag])
         | exact absurd (field10d_cmds_tag _ _ _ _ hmem) (by simp [cmdTag])
         | exact absurd (field11d_cmds_tag _ _ _ hmem) (by simp [cmdTag]))

/-- C8 witness: a `false` keep-running flag emits `Close` against the
fresh cache. -/
theorem C8_close_semantics_witness :
    CanvasEvent.Close ∈
      ((handle_feedback cfg0 win0 (.arr (JsVal.undefined :: .undefined ::
        .bool false :: .undefined :: .undefined :: .undefined :: .undefined ::
        .undefined :: .undefined :: .undefined :: .undefined :: .undefined ::
        []))).state).cmds :=
  (C8_close_semantics cfg0 win0 _ _ _ _ _ _ _ _ _ _ _ _ [] _ rfl rfl rfl).1 rfl

/-- C6 counterexample: against a cache whose cursor is `None`, a reply
every field of which resolves to the cached value still emits a cursor
command, because the cursor field is the `"none"` sentinel — and it
does so again on every repetition, so reconciliation of a
cache-matching reply is not emission-free. -/
theorem C6_counterexample :
    cfg0.toCursorIcon "none" = winC6.cursor ∧
    handle_feedback cfg0 winC6 replyC6 =
      .ok ⟨winC6, [CanvasEvent.Cursor none], [], []⟩ ∧
    ((handle_feedback cfg0 winC6 replyC6).state).cmds ≠ [] := by
  have hwc : ({ winC6 with cursor := none } : WindowState) = winC6 := rfl
  have e0 : ∀ w : WindowState, field0d .undefined w = ⟨w, [], [], []⟩ := fun w => rfl
  have e1 : field1d (.str "") winC6 = ⟨winC6, [], [], []⟩ := field1d_skip winC6
  have e2 : ∀ w : WindowState, field2d (.bool true) w = ⟨w, [], [], []⟩ :=
    fun w => rfl
  have e3 : field3d (.bool false) winC6 = ⟨winC6, [], [], []⟩ := field3d_skip winC6
  have e4 : field4d (.num 0) winC6 = ⟨winC6, [], [], []⟩ :=
    field4d_skip 0 winC6 (by norm_num [f64_as_u64, winC6, Window.new])
  have e56 : field56d (.num 300) (.num 150) winC6 = ⟨winC6, [], [], []⟩ :=
    field56d_skip 300 150 winC6 rfl
  have e78 : field78d (.num 0) (.num 0) winC6 = ⟨winC6, [], [], []⟩ :=
    field78d_skip 0 0 winC6
      (by norm_num [f64_as_i32, ratTrunc, winC6, Window.new])
  have e9 : field9d cfg0 (.str "none") winC6 =
      ⟨{ winC6 with cursor := none }, [CanvasEvent.Cursor none], [], []⟩ :=
    field9d_none cfg0 winC6 rfl
  have e10 : field10d cfg0 (.str "contain") winC6 = ⟨winC6, [], [], []⟩ :=
    field10d_skip cfg0 "contain" winC6 rfl (by decide)
  have e11 : field11d (.bool false) winC6 = ⟨winC6, [], [], []⟩ :=
    field11d_skip winC6
  have key : handle_feedback cfg0 winC6 replyC6 =
      .ok ⟨winC6, [CanvasEvent.Cursor none], [], []⟩ := by
    show handle_feedback cfg0 winC6 (.arr (JsVal.undefined :: .str "" :: .bool true ::
      .bool false :: .num 0 :: .num 300 :: .num 150 :: .num 0 :: .num 0 ::
      .str "none" :: .str "contain" :: .bool false :: [])) = _
    rw [handle_feedback_ok cfg0 winC6 _ _ _ _ _ _ _ _ _ _ _ _ [] rfl rfl]
    simp [reconcile12, applyDelta, e0, e1, e2, e3, e4, e56, e78, e9, e10, e11, hwc]
  exact ⟨rfl, key, by rw [key]; simp [FbRes.state]⟩

/-- C6 amended: with live channels, a 12-field reply whose fields 1, 3,
4, 5/6, 7/8, 9, 10 and 11 all resolve to the corresponding cached
values, whose field 0 is not a context and whose field 2 is not the
boolean `false`, and whose cursor and fit fields are not the literal
sentinel `"none"`, makes reconciliation emit nothing on either channel
and leave the cache unchanged — hence reconciling the same
cache-matching reply any number of times emits nothing. -/
theorem C6_idempotence (cfg : Config) (win : WindowState)
    (v0 v2 : JsVal) (q4 qw qh qx qy : ℚ) (s9 s10 : String) (rest : List JsVal)
    (hp : cfg.proxyOpen = true) (hj : cfg.jsChannel = some true)
    (h0 : ∀ p, v0 ≠ JsVal.context p) (h2 : v2 ≠ JsVal.bool false)
    (h4 : f64_as_u64 q4 = win.fps)
    (h56 : (f64_as_u32 qw, f64_as_u32 qh) = win.size)
    (h78 : (f64_as_i32 qx, f64_as_i32 qy) = win.position)
    (h9 : cfg.toCursorIcon s9 = win.cursor) (h9n : s9 ≠ "none")
    (h10 : cfg.toCanvasFit s10 = win.fit) (h10n : s10 ≠ "none") :
    handle_feedback cfg win (.arr (v0 :: .str win.title :: v2 ::
      .bool win.fullscreen :: .num q4 :: .num qw :: .num qh :: .num qx :: .num qy ::
      .str s9 :: .str s10 :: .bool win.visible :: rest)) = .ok ⟨win, [], [], []⟩ := by
  rw [handle_feedback_ok cfg win _ _ _ _ _ _ _ _ _ _ _ _ rest hp hj]
  have e0 : field0d v0 win = ⟨win, [], [], []⟩ := field0d_skip v0 win h0
  have e1 : field1d (.str win.title) win = ⟨win, [], [], []⟩ := field1d_skip win
  have e2 : field2d v2 win = ⟨win, [], [], []⟩ := field2d_skip v2 win h2
  have e3 : field3d (.bool win.fullscreen) win = ⟨win, [], [], []⟩ :=
    field3d_skip win
  have e4 : field4d (.num q4) win = ⟨win, [], [], []⟩ := field4d_skip q4 win h4
  have e56 : field56d (.num qw) (.num qh) win = ⟨win, [], [], []⟩ :=
    field56d_skip qw qh win h56
  have e78 : field78d (.num qx) (.num qy) win = ⟨win, [], [], []⟩ :=
    field78d_skip qx qy win h78
  have e9 : field9d cfg (.str s9) win = ⟨win, [], [], []⟩ :=
    field9d_skip cfg s9 win h9 h9n
  have e10 : field10d cfg (.str s10) win = ⟨win, [], [], []⟩ :=
    field10d_skip cfg s10 win h10 h10n
  have e11 : field11d (.bool win.visible) win = ⟨win, [], [], []⟩ :=
    field11d_skip win
  simp [reconcile12, applyDelta, e0, e1, e2, e3, e4, e56, e78, e9, e10, e11]

/-- C6 witness: the amended idempotence at the fresh 300×150 cache with
a fully cache-matching reply. -/
theorem C6_idempotence_witness :
    cfg0.toCursorIcon "default" = win0.cursor ∧
    handle_feedback cfg0 win0 (.arr (JsVal.undefined :: .str win0.title ::
      .bool true :: .bool win0.fullscreen :: .num 0 :: .num 300 :: .num 150 ::
      .num 0 :: .num 0 :: .str "default" :: .str "contain" ::
      .bool win0.visible :: [])) = .ok ⟨win0, [], [], []⟩ :=
  ⟨rfl,
    C6_idempotence cfg0 win0 .undefined (.bool true) 0 300 150 0 0 "default"
      "contain" [] rfl rfl (by simp) (by simp)
      (by norm_num [f64_as_u64, win0, Window.new]) rfl
      (by norm_num [f64_as_i32, ratTrunc, win0, Window.new]) rfl (by decide) rfl
      (by decide)⟩

/-- C10: reply numbers are coerced by Rust truncating casts — fps and
width/height truncate toward zero to unsigned integers with every
negative value mapping to 0, x/y truncate toward zero to signed
integers (saturating at the i32 range) — and each change test compares
the coerced value with the cache, so a fractional or negative input
that coerces to the cached value updates nothing and emits no command
for its field. -/
theorem C10_numeric_coercion (cfg : Config) (win : WindowState)
    (v0 v1 v2 v3 v9 v10 v11 : JsVal) (rest vals : List JsVal) (q4 qw qh qx qy : ℚ)
    (hv : vals = v0 :: v1 :: v2 :: v3 :: .num q4 :: .num qw :: .num qh ::
      .num qx :: .num qy :: v9 :: v10 :: v11 :: rest)
    (hp : cfg.proxyOpen = true) (hj : cfg.jsChannel = some true)
    (h4 : f64_as_u64 q4 = win.fps)
    (h56 : (f64_as_u32 qw, f64_as_u32 qh) = win.size)
    (h78 : (f64_as_i32 qx, f64_as_i32 qy) = win.position) :
    (∀ q : ℚ, q < 0 → f64_as_u64 q = 0 ∧ f64_as_u32 q = 0) ∧
    (∀ q : ℚ, 0 ≤ q → ratTrunc q = ⌊q⌋) ∧
    (∀ q : ℚ, q ≤ 0 → ratTrunc q = -⌊-q⌋) ∧
    (∀ q : ℚ, 0 ≤ q → ratTrunc q ≤ 2 ^ 64 - 1 → (f64_as_u64 q : ℤ) = ratTrunc q) ∧
    (∀ q : ℚ, 0 ≤ q → ratTrunc q ≤ 2 ^ 32 - 1 → (f64_as_u32 q : ℤ) = ratTrunc q) ∧
    (∀ q : ℚ, -(2 ^ 31) ≤ ratTrunc q → ratTrunc q ≤ 2 ^ 31 - 1 →
      f64_as_i32 q = ratTrunc q) ∧
    ((handle_feedback cfg win (.arr vals)).state).win.fps = win.fps ∧
    ((handle_feedback cfg win (.arr vals)).state).win.size = win.size ∧
    ((handle_feedback cfg win (.arr vals)).state).win.position = win.position ∧
    (∀ s : FbState, f64_as_u64 q4 = s.win.fps → field4 cfg (.num q4) s = .ok s) ∧
    (∀ s : FbState, (f64_as_u32 qw, f64_as_u32 qh) = s.win.size →
      field56inner cfg qw (.num qh) s = .ok s) ∧
    (∀ s : FbState, (f64_as_i32 qx, f64_as_i32 qy) = s.win.position →
      field78inner cfg qx (.num qy) s = .ok s) := by
  subst hv
  rw [handle_feedback_ok cfg win _ _ _ _ _ _ _ _ _ _ _ _ rest hp hj]
  refine ⟨?_, ?_, ?_, ?_, ?_, ?_, ?_, ?_, ?_, ?_, ?_, ?_⟩
  · intro q hq
    constructor <;> simp [f64_as_u64, f64_as_u32, le_of_lt hq]
  · intro q hq
    simp [ratTrunc, hq]
  · intro q hq
    rcases lt_or_eq_of_le hq with h | h
    · simp [ratTrunc, not_le.mpr h]
    · subst h
      norm_num [ratTrunc]
  · intro q hq hb
    have ht : ratTrunc q = ⌊q⌋ := by simp [ratTrunc, hq]
    have h0 : (0 : ℤ) ≤ ⌊q⌋ := Int.floor_nonneg.mpr hq
    rcases eq_or_lt_of_le hq with h | h
    · rw [← h] at ht ⊢
      norm_num [f64_as_u64, ht]
    · have hq2 : ¬ q ≤ 0 := not_le.mpr h
      rw [ht] at hb
      have htn : (⌊q⌋).toNat ≤ 2 ^ 64 - 1 := by omega
      simp only [f64_as_u64, if_neg hq2, ht, Nat.min_def, if_pos htn]
      exact Int.toNat_of_nonneg h0
  · intro q hq hb
    have ht : ratTrunc q = ⌊q⌋ := by simp [ratTrunc, hq]
    have h0 : (0 : ℤ) ≤ ⌊q⌋ := Int.floor_nonneg.mpr hq
    rcases eq_or_lt_of_le hq with h | h
    · rw [← h] at ht ⊢
      norm_num [f64_as_u32, ht]
    · have hq2 : ¬ q ≤ 0 := not_le.mpr h
      rw [ht] at hb
      have htn : (⌊q⌋).toNat ≤ 2 ^ 32 - 1 := by omega
      simp only [f64_as_u32, if_neg hq2, ht, Nat.min_def, if_pos htn]
      exact Int.toNat_of_nonneg h0
  · intro q h1 h2
    simp only [f64_as_i32]
    rw [min_eq_left h2, max_eq_right h1]
  · simp only [reconcile12, applyDelta, FbRes.state, field11d_fps, field10d_fps,
      field9d_fps, field78d_fps, field56d_fps, field4d_fps_num, field3d_fps,
      field2d_win, field1d_fps, field0d_win, h4]
  · simp only [reconcile12, applyDelta, FbRes.state, field11d_size, field10d_size,
      field9d_size, field78d_size, field56d_size_num, field4d_size, field3d_size,
      field2d_win, field1d_size, field0d_win, h56]
  · simp only [reconcile12, applyDelta, FbRes.state, field11d_position,
      field10d_position, field9d_position, field78d_position_num, field56d_position,
      field4d_position, field3d_position, field2d_win, field1d_position,
      field0d_win, h78]
  · intro s hs
    simp [field4, hs]
  · intro s hs
    simp [field56inner, hs]
  · intro s hs
    simp [field78inner, hs]

/-- C10 witness: a fractional fps of one half and a position of
(-1/2, 0) coerce to the cached 0 values and leave everything
unchanged. -/
theorem C10_numeric_coercion_witness :
    f64_as_u64 (1 / 2) = win0.fps ∧
    ((handle_feedback cfg0 win0 (.arr (JsVal.undefined :: .undefined ::
      .undefined :: .undefined :: .num (1 / 2) :: .num 300 :: .num 150 ::
      .num (-(1 / 2)) :: .num 0 :: .undefined :: .undefined :: .undefined ::
      []))).state).win.fps = win0.fps :=
  ⟨by norm_num [f64_as_u64, ratTrunc, win0, Window.new],
    (C10_numeric_coercion cfg0 win0 _ _ _ _ _ _ _ [] _ (1 / 2) 300 150 (-(1 / 2)) 0
      rfl rfl rfl (by norm_num [f64_as_u64, ratTrunc, win0, Window.new]) rfl
      (by norm_num [f64_as_i32, ratTrunc, win0,
        Window.new])).2.2.2.2.2.2.1⟩

end SkiaWindow
